import Mathlib

/-!
# V-Ray For Blender scene export: change-tracked object and view export

A shallow embedding of `DataExporter::exportObject`, `DataExporter::exportVRayClipper`,
`DataExporter::exportHair` (`scene_exporter/vfb_export_object.cpp`) and of
`SceneExporter::sync_view` with its helpers (`vfb_render_view.cpp`).

Host data (Blender objects, node trees, particle settings, viewport) is read-only input and
is given as plain records holding exactly the values the code reads.  The exporter's mutable
state is passed explicitly: the id tracker, the ordered log of calls made on the plugin
exporter `m_exporter`, and the lines written by `PRINT_ERROR`.

Helpers of `DataExporter` that are declared elsewhere in the repository (`getNodeName`,
`exportGeomStaticMesh`, `exportMtlMulti`, `exportSocket`, ...) are parameters, collected in
`ExportEnv`; a sub-exporter is given by the handle it returns and the plugin descriptions it
submits while running.  Floating point payloads (matrices, field of view, clip distances) are
never inspected by the modelled control flow and are carried as integer stand-ins.

Where the code dereferences a pointer or indexes a collection without a guard, the modelled
function returns an `Option` and `none` stands for the access that the language leaves
undefined.
-/

namespace VRayForBlender

/-! ## Attribute values and plugin descriptions -/

/-- Stand-in for `BLTransform` / `AttrTransform`: a matrix, carried as opaque payload. -/
structure Transform where
  data : List Int
deriving DecidableEq

/-- The `AttrPlugin` handle: the name of a plugin instance; empty means nothing exported. -/
structure AttrPlugin where
  plugin : String
deriving DecidableEq

/-- The default constructed `AttrPlugin`. -/
def AttrPlugin.empty : AttrPlugin := ⟨""⟩

/-- The `operator bool` of `AttrPlugin`: the handle names a plugin. -/
def AttrPlugin.valid (p : AttrPlugin) : Bool := decide (p.plugin ≠ "")

/-- The `AttrValue` variant, with the alternatives used by the modelled functions. -/
inductive AttrValue where
  | unknown
  | plugin (p : AttrPlugin)
  | string (s : String)
  | int (i : Int)
  | bool (b : Bool)
  | float (x : Int)
  | transform (tm : Transform)
  | listPlugin (ps : List AttrPlugin)
deriving DecidableEq

/-- The `operator bool` of `AttrValue`: a value is set, and a plugin value names a plugin. -/
def AttrValue.valid : AttrValue → Bool
  | .unknown => false
  | .plugin p => p.valid
  | _ => true

/-- A `PluginDesc`: instance name, plugin type and the attributes in the order of `add`. -/
structure PluginDesc where
  pluginName : String
  pluginID : String
  pluginAttrs : List (String × AttrValue)
deriving DecidableEq

/-- The constructor `PluginDesc(name, type)`. -/
def PluginDesc.new (name type : String) : PluginDesc := ⟨name, type, []⟩

/-- The method `PluginDesc::add(attrName, value)`. -/
def PluginDesc.add (d : PluginDesc) (attr : String) (v : AttrValue) : PluginDesc :=
  { d with pluginAttrs := d.pluginAttrs ++ [(attr, v)] }

/-- The value stored under an attribute name, if any. -/
def PluginDesc.get (d : PluginDesc) (attr : String) : Option AttrValue :=
  (d.pluginAttrs.find? (fun kv => kv.1 == attr)).map Prod.snd

/-! ## Host data read by the exporter -/

/-- An input socket of a node: its name and whether a link ends in it. -/
structure NodeSocket where
  name : String
  is_linked : Bool
deriving DecidableEq

/-- A node of a node tree. -/
structure Node where
  bl_idname : String
  inputs : List NodeSocket
deriving DecidableEq

/-- A V-Ray object node tree. -/
structure NodeTree where
  name : String
  is_updated : Bool
  nodes : List Node
deriving DecidableEq

/-- The part of a parent `BL::Object` that `exportObject` reads. -/
structure ParentObject where
  is_updated : Bool
  is_updated_data : Bool
deriving DecidableEq

/-- A `BL::Material`. -/
structure Material where
  name : String
deriving DecidableEq

/-- A `BL::MaterialSlot`; `material` is `none` for an empty slot. -/
structure MaterialSlot where
  material : Option Material
deriving DecidableEq

/-- The `vray.VRayClipper` property group of an object. -/
structure VRayClipperProps where
  use_obj_mesh : Bool
  affect_light : Bool
  only_camera_rays : Bool
  clip_lights : Bool
  use_obj_mtl : Bool
  set_material_id : Bool
  material_id : Int
  exclusion_nodes : String
  exclusion_mode : Int
deriving DecidableEq

/-- A `BL::Object` as seen by the exporter.  `data` tells whether `ob.data()` is set,
`ntree` is the result of `Nodes::GetNodeTree(ob)`, `is_visible` of `ob.is_visible(m_scene)`. -/
structure Object where
  name : String
  data : Bool
  is_updated : Bool
  is_updated_data : Bool
  parent : Option ParentObject
  ntree : Option NodeTree
  pass_index : Int
  matrix_world : Transform
  is_visible : Bool
  material_slots : List MaterialSlot
  vrayClipper : VRayClipperProps
deriving DecidableEq

/-- A `BL::Group`: its name and the objects it holds. -/
structure Group where
  name : String
  objects : List Object
deriving DecidableEq

/-- The values of `BL::ParticleSettings::type`. -/
inductive ParticleType where
  | EMITTER
  | HAIR
deriving DecidableEq

/-- The values of `BL::ParticleSettings::render_type` (the code only tests for `PATH`). -/
inductive ParticleRenderType where
  | NONE
  | HALO
  | LINE
  | PATH
  | OBJECT
  | GROUP
  | BILLBOARD
deriving DecidableEq

/-- A `BL::ParticleSettings` block. -/
structure ParticleSettings where
  name : String
  type : ParticleType
  render_type : ParticleRenderType
  is_updated : Bool
  material : Int
deriving DecidableEq

/-- A `BL::ParticleSystem`; `settings` is `none` when `psys.settings()` is a null pointer. -/
structure ParticleSystem where
  name : String
  settings : Option ParticleSettings
deriving DecidableEq

/-- A `BL::ParticleSystemModifier`. -/
structure ParticleSystemModifier where
  name : String
deriving DecidableEq

/-- The `ObjectOverridesAttrs` of a dupli instance; `override` is its `operator bool`. -/
structure ObjectOverridesAttrs where
  override : Bool
  visible : Bool
  tm : Transform
  namePrefix : String
deriving DecidableEq

/-- The default argument `ObjectOverridesAttrs()`: no override. -/
def ObjectOverridesAttrs.none : ObjectOverridesAttrs := ⟨false, false, ⟨[]⟩, ""⟩

/-! ## Exporter state -/

/-- Categories of the id tracker: the default of `IdTrack::insert` and `IdTrack::CLIPPER`. -/
inductive IdTrackType where
  | DEFAULT
  | CLIPPER
deriving DecidableEq

/-- One active entry of the id tracker: object (by name), plugin name, category. -/
structure IdTrackEntry where
  ob : String
  plugin : String
  type : IdTrackType
deriving DecidableEq

/-- A call received by the plugin exporter `m_exporter`, or one of the two `SceneExporter`
hooks used by `sync_view`.  `export_plugin` is a call written in the modelled functions;
`sub_export` is an `export_plugin` call issued inside a sub-exporter. -/
inductive ExporterCall where
  | export_plugin (desc : PluginDesc)
  | sub_export (desc : PluginDesc)
  | remove_plugin (name : String)
  | stop
  | start
  | resize (w h : Int)
  | tag_redraw
deriving DecidableEq

/-- Mutable state of `DataExporter` together with what it has sent out. -/
structure DataExporter where
  m_id_track : List IdTrackEntry
  m_exporter : List ExporterCall
  errors : List String
  ntree_tags : List (String × Bool)
deriving DecidableEq

/-- A fresh exporter: empty tracker, nothing sent. -/
def DataExporter.init : DataExporter := ⟨[], [], [], []⟩

/-- Result of a sub-exporter: the handle it returns and the descriptions it submits. -/
structure SubExport where
  plugin : AttrPlugin
  descs : List PluginDesc
deriving DecidableEq

/-- The `DataExporter` members used by the modelled functions and declared elsewhere. -/
structure ExportEnv where
  getNodeName : Object → String
  getMeshName : Object → String
  getHairName : Object → ParticleSystem → ParticleSettings → String
  getDefaultMaterial : AttrPlugin
  exportGeomStaticMesh : Object → SubExport
  exportMtlMulti : Object → SubExport
  exportSocket : NodeTree → NodeSocket → Object → SubExport
  getConnectedNode : NodeTree → NodeSocket → Object → Node
  exportGeomMayaHair : Object → ParticleSystem → ParticleSystemModifier → SubExport
  exportMaterial : Material → SubExport
  groups : List Group

/-- Modelled from the spec: `IdTrack::insert` is declared outside the sources at hand.  The
spec gives it as "`insert(entity, handle, category=default)`: records/overwrites the mapping",
with the invariant "at most one active entry per (entity, category); re-insertion
overwrites, not accumulates".  The tracker is kept as the list of its active entries: an
insertion drops the entry of the same object and category, if there is one, and adds the new
entry. -/
def DataExporter.id_track_insert (self : DataExporter) (ob : Object) (plugin : String)
    (type : IdTrackType) : DataExporter :=
  { self with
    m_id_track :=
      self.m_id_track.filter (fun e => !(decide (e.ob = ob.name) && decide (e.type = type))) ++
        [⟨ob.name, plugin, type⟩] }

/-- Modelled from the spec: `PluginExporter::export_plugin` is the sink's
`submit(description) -> Handle`; the description is accepted and the handle of its instance
name is returned. -/
def DataExporter.export_plugin (self : DataExporter) (desc : PluginDesc) :
    AttrPlugin × DataExporter :=
  (⟨desc.pluginName⟩, { self with m_exporter := self.m_exporter ++ [.export_plugin desc] })

/-- Run a sub-exporter: its submissions reach the sink, its handle is returned. -/
def DataExporter.sub (self : DataExporter) (r : SubExport) : AttrPlugin × DataExporter :=
  (r.plugin, { self with m_exporter := self.m_exporter ++ r.descs.map .sub_export })

/-- The macro `PRINT_ERROR`: one line on standard output. -/
def DataExporter.print_error (self : DataExporter) (msg : String) : DataExporter :=
  { self with errors := self.errors ++ [msg] }

/-- The call `DataExporter::tag_ntree(ntree, updated)`. -/
def DataExporter.tag_ntree (self : DataExporter) (ntree : NodeTree) (updated : Bool) :
    DataExporter :=
  { self with ntree_tags := self.ntree_tags ++ [(ntree.name, updated)] }

/-- Modelled from the spec: `Nodes::GetNodeByType` locates "the graph's designated output
node", the first node of the tree with the given `bl_idname`. -/
def Nodes.GetNodeByType (ntree : NodeTree) (type : String) : Option Node :=
  ntree.nodes.find? (fun n => n.bl_idname == type)

/-- Modelled from the spec: `Nodes::GetInputSocketByName` returns the input of the node with
the given name, or a null socket. -/
def Nodes.GetInputSocketByName (node : Node) (name : String) : Option NodeSocket :=
  node.inputs.find? (fun s => s.name == name)

/-! ## `DataExporter::exportObject` -/

/-- Lines 36 and 39-42: the effective "object changed" flag. -/
def exportObject.is_updated (ob : Object) (check_updated : Bool) : Bool :=
  let is_updated := if check_updated then ob.is_updated else true
  match ob.parent with
  | some parent => if !is_updated then parent.is_updated else is_updated
  | none => is_updated

/-- Lines 37, 43-46 and 48-50: the effective "data changed" flag. -/
def exportObject.is_data_updated (ob : Object) (check_updated : Bool) : Bool :=
  let is_data_updated := if check_updated then ob.is_updated_data else true
  let is_data_updated :=
    match ob.parent with
    | some parent => if !is_data_updated then parent.is_updated_data else is_data_updated
    | none => is_data_updated
  match ob.ntree with
  | some ntree => is_data_updated || ntree.is_updated
  | none => is_data_updated

/-- The locals `geom`, `mtl` and `isMeshLight` of `exportObject`. -/
structure ObjectParts where
  geom : AttrPlugin
  mtl : AttrPlugin
  isMeshLight : Bool
deriving DecidableEq

/-- Lines 58-74: geometry and material of an object without node tree. -/
def exportObject.direct (env : ExportEnv) (ob : Object) (is_updated is_data_updated : Bool)
    (self : DataExporter) : ObjectParts × DataExporter :=
  let (geom, self) :=
    if !is_data_updated then
      (AttrPlugin.mk (env.getMeshName ob), self)
    else
      let (geom, self) := self.sub (env.exportGeomStaticMesh ob)
      if !geom.valid then
        (geom, self.print_error ("Object: " ++ ob.name ++ " => Incorrect geometry!"))
      else
        (geom, self)
  let (mtl, self) :=
    if is_updated then self.sub (env.exportMtlMulti ob) else (AttrPlugin.empty, self)
  (⟨geom, mtl, false⟩, self)

/-- Lines 75-128: geometry and material of an object driven by a node tree. -/
def exportObject.fromNtree (env : ExportEnv) (ob : Object) (ntree : NodeTree)
    (self : DataExporter) : ObjectParts × DataExporter :=
  let pre := "Object: " ++ ob.name ++ " Node tree: " ++ ntree.name
  match Nodes.GetNodeByType ntree "VRayNodeObjectOutput" with
  | none =>
    (⟨AttrPlugin.empty, AttrPlugin.empty, false⟩,
      self.print_error (pre ++ " => Output node not found!"))
  | some nodeOutput =>
    match (Nodes.GetInputSocketByName nodeOutput "Geometry").filter (fun s => s.is_linked) with
    | none =>
      (⟨AttrPlugin.empty, AttrPlugin.empty, false⟩,
        self.print_error (pre ++ " => Geometry node is not set!"))
    | some geometrySocket =>
      let (geom, self) := self.sub (env.exportSocket ntree geometrySocket ob)
      if !geom.valid then
        (⟨geom, AttrPlugin.empty, false⟩, self.print_error (pre ++ " => Incorrect geometry!"))
      else
        let geometryNode := env.getConnectedNode ntree geometrySocket ob
        let isMeshLight := geometryNode.bl_idname == "VRayNodeLightMesh"
        if isMeshLight then
          (⟨geom, AttrPlugin.empty, isMeshLight⟩,
            self.id_track_insert ob geom.plugin IdTrackType.DEFAULT)
        else
          match (Nodes.GetInputSocketByName nodeOutput "Material").filter
              (fun s => s.is_linked) with
          | none =>
            let self := self.print_error
              (pre ++ " => Material node is not set! Using object materials.")
            let (mtl, self) := self.sub (env.exportMtlMulti ob)
            (⟨geom, mtl, isMeshLight⟩, self)
          | some materialSocket =>
            let (mtl, self) := self.sub (env.exportSocket ntree materialSocket ob)
            if !mtl.valid then
              (⟨geom, mtl, isMeshLight⟩, self.print_error (pre ++ " => Incorrect material!"))
            else
              (⟨geom, mtl, isMeshLight⟩, self)

/-- Line 131: the name under which the `Node` plugin is exported. -/
def exportObject.exportName (env : ExportEnv) (ob : Object) (override : ObjectOverridesAttrs) :
    String :=
  if override.override then override.namePrefix ++ env.getNodeName ob else env.getNodeName ob

/-- Lines 148-159: the `Node` plugin description. -/
def exportObject.nodeDesc (env : ExportEnv) (ob : Object) (override : ObjectOverridesAttrs)
    (geom mtl : AttrPlugin) : PluginDesc :=
  let nodeDesc := PluginDesc.new (exportObject.exportName env ob override) "Node"
  let nodeDesc := nodeDesc.add "geometry" (.plugin geom)
  let nodeDesc := nodeDesc.add "material" (.plugin mtl)
  let nodeDesc := nodeDesc.add "objectID" (.int ob.pass_index)
  if override.override then
    (nodeDesc.add "visible" (.bool override.visible)).add "transform" (.transform override.tm)
  else
    (nodeDesc.add "transform" (.transform ob.matrix_world)).add "visible" (.bool ob.is_visible)

/-- Lines 140-143: the material put on the `Node`; the default material replaces an empty
one. -/
def exportObject.material (env : ExportEnv) (parts : ObjectParts) : AttrPlugin :=
  if !parts.mtl.valid then env.getDefaultMaterial else parts.mtl

/-- Lines 48-128: tag the node tree, then resolve geometry and material on the path of the
object ("direct" without node tree, "graph-driven" with one). -/
def exportObject.parts (env : ExportEnv) (ob : Object) (is_updated is_data_updated : Bool)
    (self : DataExporter) : ObjectParts × DataExporter :=
  match ob.ntree with
  | some ntree => exportObject.fromNtree env ob ntree (self.tag_ntree ntree false)
  | none => exportObject.direct env ob is_updated is_data_updated self

/-- The function `DataExporter::exportObject(ob, check_updated, override)`. -/
def exportObject (env : ExportEnv) (ob : Object) (check_updated : Bool)
    (override : ObjectOverridesAttrs) (self : DataExporter) : AttrValue × DataExporter :=
  if !ob.data then
    (.plugin AttrPlugin.empty, self)
  else
    let is_updated := exportObject.is_updated ob check_updated
    let is_data_updated := exportObject.is_data_updated ob check_updated
    let (parts, self) := exportObject.parts env ob is_updated is_data_updated self
    let self :=
      if override.override then self
      else self.id_track_insert ob (exportObject.exportName env ob override) IdTrackType.DEFAULT
    let mtl := exportObject.material env parts
    if parts.geom.valid && mtl.valid && (is_updated || is_data_updated) then
      if !parts.isMeshLight then
        let (node, self) :=
          self.export_plugin (exportObject.nodeDesc env ob override parts.geom mtl)
        (.plugin node, self)
      else
        (.plugin AttrPlugin.empty, self)
    else
      (.plugin AttrPlugin.empty, self)

/-! ## `DataExporter::exportVRayClipper` -/

/-- Lines 207-225: the exclusion list, added when `exclusion_nodes` names a group. -/
def exportVRayClipper.exclusion (env : ExportEnv) (ob : Object) (nodeDesc : PluginDesc) :
    PluginDesc :=
  let excludeGroupName := ob.vrayClipper.exclusion_nodes
  if excludeGroupName ≠ "" then
    let plList : List AttrPlugin :=
      match env.groups.find? (fun gr => gr.name == excludeGroupName) with
      | some gr => gr.objects.map (fun o => AttrPlugin.mk (env.getNodeName o))
      | none => []
    (nodeDesc.add "exclusion_mode" (.int ob.vrayClipper.exclusion_mode)).add
      "exclusion_nodes" (.listPlugin plList)
  else
    nodeDesc

/-- Lines 186-225: the `VRayClipper` plugin description. -/
def exportVRayClipper.nodeDesc (env : ExportEnv) (ob : Object) (material : AttrPlugin) :
    PluginDesc :=
  let vrayClipper := ob.vrayClipper
  let nodeDesc := PluginDesc.new ("Clipper@" ++ ob.name) "VRayClipper"
  let nodeDesc := if material.valid then nodeDesc.add "material" (.plugin material) else nodeDesc
  let nodeDesc :=
    if vrayClipper.use_obj_mesh then
      nodeDesc.add "clip_mesh" (.plugin ⟨env.getNodeName ob⟩)
    else
      nodeDesc.add "clip_mesh" (.plugin ⟨"NULL"⟩)
  let nodeDesc := nodeDesc.add "enabled" (.int 1)
  let nodeDesc := nodeDesc.add "affect_light" (.bool vrayClipper.affect_light)
  let nodeDesc := nodeDesc.add "only_camera_rays" (.bool vrayClipper.only_camera_rays)
  let nodeDesc := nodeDesc.add "clip_lights" (.bool vrayClipper.clip_lights)
  let nodeDesc := nodeDesc.add "use_obj_mtl" (.bool vrayClipper.use_obj_mtl)
  let nodeDesc := nodeDesc.add "set_material_id" (.bool vrayClipper.set_material_id)
  let nodeDesc := nodeDesc.add "material_id" (.int vrayClipper.material_id)
  let nodeDesc := nodeDesc.add "object_id" (.int ob.pass_index)
  let nodeDesc := nodeDesc.add "transform" (.transform ob.matrix_world)
  exportVRayClipper.exclusion env ob nodeDesc

/-- The function `DataExporter::exportVRayClipper(ob, check_updated, overrideAttrs)`.  The
clean path returns the `std::string` `pluginName` converted to an `AttrValue`. -/
def exportVRayClipper (env : ExportEnv) (ob : Object) (check_updated : Bool)
    (_overrideAttrs : ObjectOverridesAttrs) (self : DataExporter) : AttrValue × DataExporter :=
  let pluginName := "Clipper@" ++ ob.name
  let self := self.id_track_insert ob pluginName IdTrackType.CLIPPER
  let is_updated := if check_updated then ob.is_updated else true
  let is_data_updated := if check_updated then ob.is_updated_data else true
  if !is_updated && !is_data_updated then
    (.string pluginName, self)
  else
    let (material, self) := self.sub (env.exportMtlMulti ob)
    let (node, self) := self.export_plugin (exportVRayClipper.nodeDesc env ob material)
    (.plugin node, self)

/-! ## `DataExporter::exportHair` -/

/-- The access `ob.material_slots[index]`: defined only for an index inside the list. -/
def material_slots_at (slots : List MaterialSlot) (index : Int) : Option MaterialSlot :=
  if 0 ≤ index then slots.get? index.toNat else none

/-- Lines 261-271: the hair material.  `none` stands for a slot access outside the list,
whose behaviour the language leaves undefined. -/
def exportHair.material (env : ExportEnv) (ob : Object) (pset : ParticleSettings)
    (self : DataExporter) : Option (AttrPlugin × DataExporter) :=
  let hair_mtl_index : Int := pset.material - 1
  let length : Int := ob.material_slots.length
  if length ≠ 0 && decide (hair_mtl_index < length) then
    match material_slots_at ob.material_slots hair_mtl_index with
    | none => none
    | some slot =>
      match slot.material with
      | some hair_material =>
        let (hair_mtl, self) := self.sub (env.exportMaterial hair_material)
        some (if !hair_mtl.valid then env.getDefaultMaterial else hair_mtl, self)
      | none => some (env.getDefaultMaterial, self)
  else
    some (env.getDefaultMaterial, self)

/-- Lines 274-278: the hair `Node` plugin description. -/
def exportHair.hairNodeDesc (ob : Object) (hairNodeName : String) (hair_geom hair_mtl : AttrPlugin) :
    PluginDesc :=
  let hairNodeDesc := PluginDesc.new hairNodeName "Node"
  let hairNodeDesc := hairNodeDesc.add "geometry" (.plugin hair_geom)
  let hairNodeDesc := hairNodeDesc.add "material" (.plugin hair_mtl)
  let hairNodeDesc := hairNodeDesc.add "transform" (.transform ob.matrix_world)
  hairNodeDesc.add "objectID" (.int ob.pass_index)

/-- Lines 252-259: the hair geometry, the cached name unless the data changed. -/
def exportHair.geom (env : ExportEnv) (ob : Object) (psm : ParticleSystemModifier)
    (psys : ParticleSystem) (pset : ParticleSettings) (hair_is_data_updated : Bool)
    (self : DataExporter) : AttrPlugin × DataExporter :=
  if !hair_is_data_updated then
    (AttrPlugin.mk (env.getHairName ob psys pset), self)
  else
    self.sub (env.exportGeomMayaHair ob psys psm)

/-- Lines 246-281: track the hair node, resolve geometry and material, submit the `Node`. -/
def exportHair.node (env : ExportEnv) (ob : Object) (psm : ParticleSystemModifier)
    (psys : ParticleSystem) (pset : ParticleSettings)
    (hair_is_updated hair_is_data_updated : Bool) (self : DataExporter) :
    Option DataExporter :=
  let hairNodeName := "Node@" ++ env.getHairName ob psys pset
  let self := self.id_track_insert ob hairNodeName IdTrackType.DEFAULT
  let (hair_geom, self) := exportHair.geom env ob psm psys pset hair_is_data_updated self
  match exportHair.material env ob pset self with
  | none => none
  | some (hair_mtl, self) =>
    if hair_geom.valid && hair_mtl.valid && (hair_is_updated || hair_is_data_updated) then
      some (self.export_plugin (exportHair.hairNodeDesc ob hairNodeName hair_geom hair_mtl)).2
    else
      some self

/-- The function `DataExporter::exportHair(ob, psm, psys, check_updated)`; `none` when the
material slot access falls outside the slot list. -/
def exportHair (env : ExportEnv) (ob : Object) (psm : ParticleSystemModifier)
    (psys : ParticleSystem) (check_updated : Bool) (self : DataExporter) : Option DataExporter :=
  let is_updated := if check_updated then ob.is_updated else true
  let is_data_updated := if check_updated then ob.is_updated_data else true
  match psys.settings with
  | none => some self
  | some pset =>
    if pset.type = ParticleType.HAIR ∧ pset.render_type = ParticleRenderType.PATH then
      let hair_is_updated := if check_updated then is_updated || pset.is_updated else true
      let hair_is_data_updated :=
        if check_updated then is_data_updated || pset.is_updated else true
      exportHair.node env ob psm psys pset hair_is_updated hair_is_data_updated self
    else
      some self

/-! ## View export: `vfb_render_view.cpp` -/

/-- The camera data block of a camera object, with the `vray` property groups read by the
view export.  `physical_attrs` stands for the attributes `exportCameraPhysical` derives from
the camera (offsets, lens shift, focus distance and the `CameraPhysical` property group). -/
structure CameraData where
  type_ORTHO : Bool
  clip_start : Int
  clip_end : Int
  clip_near : Bool
  clip_far : Bool
  CameraPhysical_use : Bool
  physical_attrs : List (String × AttrValue)
deriving DecidableEq

/-- A `BL::Object` used as camera; `data` is `none` when `cameraObject.data()` is null. -/
structure CameraObject where
  name : String
  data : Option CameraData
  matrix_world : Transform
deriving DecidableEq

/-- The member `ViewParams::renderSize`. -/
structure RenderSizeParams where
  w : Int
  h : Int
  offs_x : Int
  offs_y : Int
deriving DecidableEq

/-- The member `ViewParams::renderView`. -/
structure RenderViewParams where
  fov : Int
  ortho : Bool
  ortho_width : Int
  use_clip_start : Bool
  use_clip_end : Bool
  clip_start : Int
  clip_end : Int
  tm : Transform
deriving DecidableEq

/-- The view parameters snapshot `ViewParams`; `cameraObject` is `none` for a null object. -/
structure ViewParams where
  renderSize : RenderSizeParams
  renderView : RenderViewParams
  usePhysicalCamera : Bool
  cameraObject : Option CameraObject
deriving DecidableEq

/-- Modelled from the spec: the default constructed `ViewParams` (declared in
`vfb_render_view.h`): zero sizes, cleared flags, no camera object. -/
def ViewParams.new : ViewParams :=
  ⟨⟨0, 0, 0, 0⟩, ⟨0, false, 0, false, false, 0, 0, ⟨[]⟩⟩, false, none⟩

/-- The plugin name `ViewParams::renderViewPluginName`. -/
def ViewParams.renderViewPluginName : String := "renderView"

/-- The plugin name `ViewParams::physicalCameraPluginName`. -/
def ViewParams.physicalCameraPluginName : String := "cameraPhysical"

/-- The plugin name `ViewParams::defaultCameraPluginName`. -/
def ViewParams.defaultCameraPluginName : String := "cameraDefault"

/-- The comparisons of two snapshots, methods of `ViewParams` declared in
`vfb_render_view.h`; the receiver is the previous snapshot. -/
structure ViewDiffer where
  changedSize : ViewParams → ViewParams → Bool
  changedViewPosition : ViewParams → ViewParams → Bool
  changedParams : ViewParams → ViewParams → Bool
  needReset : ViewParams → ViewParams → Bool

/-- The values of `BL::RegionView3D::view_perspective`. -/
inductive ViewPerspective where
  | PERSP
  | ORTHO
  | CAMERA
deriving DecidableEq

/-- The viewport `m_view3d`. -/
structure View3D where
  lock_camera_and_layers : Bool
  camera : Option CameraObject
  clip_start : Int
  clip_end : Int
deriving DecidableEq

/-- The host members of `SceneExporter` read by `sync_view`.  `m_view3d` is `none` outside
a viewport.  The fields `camera_*` and `viewport_*` stand for the floating point results of
`get_view_from_viewport` (camera border, field of view, orthographic width, inverted view
matrix), which the control flow never inspects. -/
structure SceneHost where
  m_view3d : Option View3D
  view_perspective : ViewPerspective
  scene_camera : Option CameraObject
  region_width : Int
  region_height : Int
  camera_border : RenderSizeParams
  camera_fov : Int
  camera_ortho_width : Int
  viewport_fov : Int
  viewport_ortho_width : Int
  viewport_tm : Transform
deriving DecidableEq

/-- State of `SceneExporter`: its data exporter (which carries the log of the shared
`m_exporter`) and the stored snapshot `m_viewParams`. -/
structure SceneExporter where
  m_data_exporter : DataExporter
  m_viewParams : ViewParams
deriving DecidableEq

/-- Append one call to the log of `m_exporter`. -/
def DataExporter.call (self : DataExporter) (c : ExporterCall) : DataExporter :=
  { self with m_exporter := self.m_exporter ++ [c] }

/-- Lines 84-91: the `RenderView` plugin description. -/
def exportRenderView.viewDesc (viewParams : ViewParams) : PluginDesc :=
  let viewDesc := PluginDesc.new ViewParams.renderViewPluginName "RenderView"
  let viewDesc := viewDesc.add "transform" (.transform viewParams.renderView.tm)
  let viewDesc := viewDesc.add "fov" (.float viewParams.renderView.fov)
  let viewDesc := viewDesc.add "clipping"
    (.bool (viewParams.renderView.use_clip_start || viewParams.renderView.use_clip_end))
  let viewDesc := viewDesc.add "clipping_near" (.float viewParams.renderView.clip_start)
  let viewDesc := viewDesc.add "clipping_far" (.float viewParams.renderView.clip_end)
  let viewDesc := viewDesc.add "orthographic" (.bool viewParams.renderView.ortho)
  viewDesc.add "orthographicWidth" (.float viewParams.renderView.ortho_width)

/-- The function `DataExporter::exportRenderView(viewParams)`. -/
def exportRenderView (viewParams : ViewParams) (self : DataExporter) :
    AttrPlugin × DataExporter :=
  self.export_plugin (exportRenderView.viewDesc viewParams)

/-- Lines 99-100: the `CameraDefault` plugin description. -/
def exportCameraDefault.defCamDesc (viewParams : ViewParams) : PluginDesc :=
  let defCamDesc := PluginDesc.new ViewParams.defaultCameraPluginName "CameraDefault"
  defCamDesc.add "orthographic" (.bool viewParams.renderView.ortho)

/-- The function `DataExporter::exportCameraDefault(viewParams)`. -/
def exportCameraDefault (viewParams : ViewParams) (self : DataExporter) :
    AttrPlugin × DataExporter :=
  self.export_plugin (exportCameraDefault.defCamDesc viewParams)

/-- Lines 134-141: the `CameraPhysical` plugin description. -/
def exportCameraPhysical.physCamDesc (viewParams : ViewParams) (cameraData : CameraData) :
    PluginDesc :=
  let physCamDesc := PluginDesc.new ViewParams.physicalCameraPluginName "CameraPhysical"
  let physCamDesc := physCamDesc.add "fov" (.float viewParams.renderView.fov)
  { physCamDesc with pluginAttrs := physCamDesc.pluginAttrs ++ cameraData.physical_attrs }

/-- The function `DataExporter::exportCameraPhysical(viewParams)`: nothing is exported when
the camera object has no camera data. -/
def exportCameraPhysical (viewParams : ViewParams) (self : DataExporter) :
    AttrPlugin × DataExporter :=
  match viewParams.cameraObject.bind (fun ob => ob.data) with
  | some cameraData =>
    self.export_plugin (exportCameraPhysical.physCamDesc viewParams cameraData)
  | none => (AttrPlugin.empty, self)

/-- The camera object chosen by `get_view_from_viewport`:
`lock_camera_and_layers ? m_scene.camera() : m_view3d.camera()`. -/
def SceneHost.viewCamera (host : SceneHost) (view3d : View3D) : Option CameraObject :=
  if view3d.lock_camera_and_layers then host.scene_camera else view3d.camera

/-- The function `SceneExporter::get_view_from_viewport(viewParams)`.  The outer `none` stands
for the dereference of a null camera object, or of its null camera data, in the branch of
the non camera views (lines 250-254 read the sensor of the camera unguarded). -/
def get_view_from_viewport (host : SceneHost) (view3d : View3D) (viewParams : ViewParams)
    (self : DataExporter) : Option (ViewParams × DataExporter) :=
  if host.view_perspective = ViewPerspective.CAMERA then
    match host.viewCamera view3d with
    | some cameraObject =>
      match cameraObject.data with
      | some cameraData =>
        some ({ viewParams with
          renderSize := host.camera_border
          renderView :=
            { fov := host.camera_fov
              ortho := cameraData.type_ORTHO
              ortho_width := host.camera_ortho_width
              use_clip_start := cameraData.clip_near
              use_clip_end := cameraData.clip_far
              clip_start := cameraData.clip_start
              clip_end := cameraData.clip_end
              tm := cameraObject.matrix_world }
          cameraObject := some cameraObject }, self)
      | none => some (viewParams, self.print_error "View camera is not found!")
    | none => some (viewParams, self.print_error "View camera is not found!")
  else
    match host.viewCamera view3d with
    | none => none
    | some cameraObject =>
      match cameraObject.data with
      | none => none
      | some _ =>
        let ortho := decide (host.view_perspective = ViewPerspective.ORTHO)
        let renderView : RenderViewParams :=
          { viewParams.renderView with
            ortho := ortho
            ortho_width := host.viewport_ortho_width
            fov := host.viewport_fov }
        let renderView : RenderViewParams :=
          if ortho then
            { renderView with use_clip_start := false, use_clip_end := false }
          else
            { renderView with
              use_clip_start := true
              use_clip_end := true
              clip_start := view3d.clip_start
              clip_end := view3d.clip_end }
        some ({ viewParams with
          renderSize := ⟨host.region_width, host.region_height, 0, 0⟩
          renderView := { renderView with tm := host.viewport_tm }
          usePhysicalCamera := false
          cameraObject := some cameraObject }, self)

/-- The function `SceneExporter::is_physical_view(cameraObject)`. -/
def is_physical_view (cameraObject : Option CameraObject) : Bool :=
  match cameraObject with
  | some ob =>
    match ob.data with
    | some cameraData => cameraData.CameraPhysical_use
    | none => false
  | none => false

/-- The function `SceneExporter::get_view_from_camera(viewParams, cameraObject)`. -/
def get_view_from_camera (viewParams : ViewParams) (cameraObject : CameraObject) : ViewParams :=
  let viewParams :=
    { viewParams with renderView := { viewParams.renderView with tm := cameraObject.matrix_world } }
  match cameraObject.data with
  | some _ => { viewParams with cameraObject := some cameraObject }
  | none => viewParams

/-- Lines 332-347 of `sync_view`: the snapshot of the current view. -/
def sync_view.viewParams (host : SceneHost) (self : DataExporter) :
    Option (ViewParams × DataExporter) :=
  let viewParams := ViewParams.new
  let r : Option (ViewParams × DataExporter) :=
    match host.m_view3d with
    | some view3d => get_view_from_viewport host view3d viewParams self
    | none =>
      match host.scene_camera with
      | none => some (viewParams, self.print_error "Active scene camera is not set!")
      | some sceneCamera => some (get_view_from_camera viewParams sceneCamera, self)
  r.map (fun (viewParams, self) =>
    ({ viewParams with usePhysicalCamera := is_physical_view viewParams.cameraObject }, self))

/-- Lines 349-394 of `sync_view`: react to the differences with the stored snapshot. -/
def sync_view.update (differ : ViewDiffer) (viewParams : ViewParams) (self : SceneExporter) :
    SceneExporter :=
  let m_viewParams := self.m_viewParams
  let exporter := self.m_data_exporter
  let exporter :=
    if differ.changedSize m_viewParams viewParams then
      exporter.call (.resize viewParams.renderSize.w viewParams.renderSize.h)
    else exporter
  let exporter :=
    if differ.changedViewPosition m_viewParams viewParams then exporter.call .tag_redraw
    else exporter
  let needReset := differ.needReset m_viewParams viewParams
  let exporter :=
    if needReset then
      (((exporter.call .stop).call (.remove_plugin ViewParams.renderViewPluginName)).call
        (.remove_plugin ViewParams.defaultCameraPluginName)).call
        (.remove_plugin ViewParams.physicalCameraPluginName)
    else exporter
  let exporter :=
    if viewParams.usePhysicalCamera then (exportCameraPhysical viewParams exporter).2
    else (exportCameraDefault viewParams exporter).2
  let exporter :=
    if needReset || differ.changedParams m_viewParams viewParams then
      (exportRenderView viewParams exporter).2
    else exporter
  let exporter := if needReset then exporter.call .start else exporter
  { m_data_exporter := exporter, m_viewParams := viewParams }

/-- The function `SceneExporter::sync_view(int)`. -/
def sync_view (differ : ViewDiffer) (host : SceneHost) (self : SceneExporter) :
    Option SceneExporter :=
  match sync_view.viewParams host self.m_data_exporter with
  | none => none
  | some (viewParams, exporter) =>
    some (sync_view.update differ viewParams { self with m_data_exporter := exporter })

/-! ## Sequences of export calls -/

/-- Sample helpers: names derive from the object name, every sub-exporter submits one
description; the node linked to a "Geometry" socket is a light mesh exactly in the tree
named "LightTree". -/
def envDemo : ExportEnv where
  getNodeName := fun ob => ob.name
  getMeshName := fun ob => "Geom@" ++ ob.name
  getHairName := fun ob psys _ => "Hair@" ++ ob.name ++ psys.name
  getDefaultMaterial := ⟨"DefaultMtl"⟩
  exportGeomStaticMesh := fun ob =>
    ⟨⟨"Geom@" ++ ob.name⟩, [PluginDesc.new ("Geom@" ++ ob.name) "GeomStaticMesh"]⟩
  exportMtlMulti := fun ob =>
    ⟨⟨"Mtl@" ++ ob.name⟩, [PluginDesc.new ("Mtl@" ++ ob.name) "MtlMulti"]⟩
  exportSocket := fun _ s ob =>
    ⟨⟨s.name ++ "@" ++ ob.name⟩, [PluginDesc.new (s.name ++ "@" ++ ob.name) "NodeOutput"]⟩
  getConnectedNode := fun ntree _ _ =>
    ⟨if ntree.name = "LightTree" then "VRayNodeLightMesh" else "VRayNodeBlenderOutputGeometry", []⟩
  exportGeomMayaHair := fun ob psys _ =>
    ⟨⟨"Hair@" ++ ob.name ++ psys.name⟩,
      [PluginDesc.new ("Hair@" ++ ob.name ++ psys.name) "GeomMayaHair"]⟩
  exportMaterial := fun m => ⟨⟨m.name⟩, [PluginDesc.new m.name "MtlSingleBRDF"]⟩
  groups := []

/-- A mesh object named "Cube" with the given update flags and node tree, no parent. -/
def demoObject (is_updated is_updated_data : Bool) (ntree : Option NodeTree) : Object where
  name := "Cube"
  data := true
  is_updated := is_updated
  is_updated_data := is_updated_data
  parent := none
  ntree := ntree
  pass_index := 0
  matrix_world := ⟨[]⟩
  is_visible := true
  material_slots := []
  vrayClipper := ⟨false, false, false, false, false, false, 0, "", 0⟩

/-- A node tree, not updated, holding one output node whose two inputs are linked or not. -/
def demoTree (name : String) (geometryLinked materialLinked : Bool) : NodeTree where
  name := name
  is_updated := false
  nodes := [⟨"VRayNodeObjectOutput",
    [⟨"Geometry", geometryLinked⟩, ⟨"Material", materialLinked⟩]⟩]

/-- An override of a dupli instance with the given name prefix. -/
def demoOverride (namePrefix : String) : ObjectOverridesAttrs := ⟨true, true, ⟨[]⟩, namePrefix⟩

/-- A hair particle system rendered as paths, using the first material slot. -/
def demoHair : ParticleSystem :=
  ⟨"Fur", some ⟨"FurSettings", ParticleType.HAIR, ParticleRenderType.PATH, false, 1⟩⟩

/-- A scene camera without physical camera settings. -/
def demoCamera : CameraObject :=
  ⟨"Camera", some ⟨false, 1, 100, false, false, false, []⟩, ⟨[]⟩⟩

/-- A final render (no viewport) through `demoCamera`. -/
def demoHost : SceneHost where
  m_view3d := none
  view_perspective := ViewPerspective.PERSP
  scene_camera := some demoCamera
  region_width := 0
  region_height := 0
  camera_border := ⟨0, 0, 0, 0⟩
  camera_fov := 0
  camera_ortho_width := 0
  viewport_fov := 0
  viewport_ortho_width := 0
  viewport_tm := ⟨[]⟩

/-- A differ that asks for a reset and reports no other change. -/
def differReset : ViewDiffer := ⟨fun _ _ => false, fun _ _ => false, fun _ _ => false, fun _ _ => true⟩

/-- A differ that reports no change at all. -/
def differSame : ViewDiffer := ⟨fun _ _ => false, fun _ _ => false, fun _ _ => false, fun _ _ => false⟩

/-- A scene exporter before its first view sync. -/
def demoScene : SceneExporter := ⟨DataExporter.init, ViewParams.new⟩

/-- The snapshot that a final render through `demoCamera` takes. -/
def demoSnapshot : ViewParams :=
  { ViewParams.new with cameraObject := some demoCamera }

/-- A differ that reports a moved view and no other change. -/
def differPosition : ViewDiffer :=
  ⟨fun _ _ => false, fun _ _ => true, fun _ _ => false, fun _ _ => false⟩

/-- A camera whose `CameraPhysical` property group has `use` switched on. -/
def demoPhysicalCamera : CameraObject :=
  ⟨"Camera", some ⟨false, 1, 100, false, false, true, []⟩, ⟨[]⟩⟩

/-- A viewport in perspective (not camera) view over a scene with `demoPhysicalCamera`. -/
def demoViewportHost : SceneHost where
  m_view3d := some ⟨true, none, 1, 100⟩
  view_perspective := ViewPerspective.PERSP
  scene_camera := some demoPhysicalCamera
  region_width := 800
  region_height := 600
  camera_border := ⟨0, 0, 0, 0⟩
  camera_fov := 0
  camera_ortho_width := 0
  viewport_fov := 0
  viewport_ortho_width := 0
  viewport_tm := ⟨[]⟩

/-- The object "Cube" carrying one material slot with the material "FurMtl". -/
def demoFurObject : Object :=
  { demoObject true true none with material_slots := [⟨some ⟨"FurMtl"⟩⟩] }

/-! ## Shape of the state after the object export -/

theorem exportObject_no_data (env : ExportEnv) (ob : Object) (cu : Bool)
    (ov : ObjectOverridesAttrs) (st : DataExporter) (h : ob.data = false) :
    exportObject env ob cu ov st = (.plugin AttrPlugin.empty, st) := by
  simp [exportObject, h]

theorem direct_track (env : ExportEnv) (ob : Object) (u du : Bool) (st : DataExporter) :
    (exportObject.direct env ob u du st).2.m_id_track = st.m_id_track := by
  unfold exportObject.direct
  cases u <;> cases du <;> simp [DataExporter.sub, DataExporter.print_error] <;> split <;> rfl

theorem direct_exporter (env : ExportEnv) (ob : Object) (u du : Bool) (st : DataExporter) :
    (exportObject.direct env ob u du st).2.m_exporter =
      st.m_exporter ++
        (((if du then (env.exportGeomStaticMesh ob).descs else []) ++
          (if u then (env.exportMtlMulti ob).descs else [])).map .sub_export) := by
  unfold exportObject.direct
  cases u <;> cases du <;> simp [DataExporter.sub, DataExporter.print_error] <;> split <;> simp

theorem fromNtree_exporter (env : ExportEnv) (ob : Object) (ntree : NodeTree)
    (st : DataExporter) :
    ∃ subs : List PluginDesc,
      (exportObject.fromNtree env ob ntree st).2.m_exporter =
        st.m_exporter ++ subs.map .sub_export := by
  unfold exportObject.fromNtree
  simp only [DataExporter.sub, DataExporter.print_error, DataExporter.id_track_insert]
  split
  · exact ⟨[], by simp⟩
  · split
    · exact ⟨[], by simp⟩
    · split
      · exact ⟨_, rfl⟩
      · split
        · exact ⟨_, rfl⟩
        · split
          · exact ⟨_ ++ _, by rw [List.map_append, List.append_assoc]⟩
          · split
            · exact ⟨_ ++ _, by rw [List.map_append, List.append_assoc]⟩
            · exact ⟨_ ++ _, by rw [List.map_append, List.append_assoc]⟩

theorem parts_exporter (env : ExportEnv) (ob : Object) (u du : Bool) (st : DataExporter) :
    ∃ subs : List PluginDesc,
      (exportObject.parts env ob u du st).2.m_exporter =
        st.m_exporter ++ subs.map .sub_export := by
  unfold exportObject.parts
  split
  · exact fromNtree_exporter env ob _ _
  · exact ⟨_, direct_exporter env ob u du st⟩

theorem nodeDesc_pluginName (env : ExportEnv) (ob : Object) (ov : ObjectOverridesAttrs)
    (geom mtl : AttrPlugin) :
    (exportObject.nodeDesc env ob ov geom mtl).pluginName = exportObject.exportName env ob ov := by
  unfold exportObject.nodeDesc; split <;> rfl

theorem nodeDesc_pluginID (env : ExportEnv) (ob : Object) (ov : ObjectOverridesAttrs)
    (geom mtl : AttrPlugin) :
    (exportObject.nodeDesc env ob ov geom mtl).pluginID = "Node" := by
  unfold exportObject.nodeDesc; split <;> rfl

theorem nodeDesc_geometry (env : ExportEnv) (ob : Object) (ov : ObjectOverridesAttrs)
    (geom mtl : AttrPlugin) :
    (exportObject.nodeDesc env ob ov geom mtl).get "geometry" = some (.plugin geom) := by
  unfold exportObject.nodeDesc; split <;> simp [PluginDesc.get, PluginDesc.add, PluginDesc.new]

theorem nodeDesc_material (env : ExportEnv) (ob : Object) (ov : ObjectOverridesAttrs)
    (geom mtl : AttrPlugin) :
    (exportObject.nodeDesc env ob ov geom mtl).get "material" = some (.plugin mtl) := by
  unfold exportObject.nodeDesc; split <;>
    simp [PluginDesc.get, PluginDesc.add, PluginDesc.new, List.find?]

/-- With a data block, the export is the resolution of the parts followed by the tracker
insertion and, under the guard of line 145-147, one `Node` submission. -/
theorem exportObject_spec (env : ExportEnv) (ob : Object) (cu : Bool)
    (ov : ObjectOverridesAttrs) (st : DataExporter) (h : ob.data = true) :
    let u := exportObject.is_updated ob cu
    let du := exportObject.is_data_updated ob cu
    let P := exportObject.parts env ob u du st
    let mtl := exportObject.material env P.1
    let c := P.1.geom.valid && mtl.valid && (u || du) && !P.1.isMeshLight
    (exportObject env ob cu ov st).2.m_exporter =
        P.2.m_exporter ++
          (if c then [.export_plugin (exportObject.nodeDesc env ob ov P.1.geom mtl)] else []) ∧
      (exportObject env ob cu ov st).2.m_id_track =
        (if ov.override then P.2.m_id_track
          else (P.2.id_track_insert ob (exportObject.exportName env ob ov)
            IdTrackType.DEFAULT).m_id_track) ∧
      (exportObject env ob cu ov st).2.errors = P.2.errors ∧
      (exportObject env ob cu ov st).1 =
        .plugin (if c then ⟨exportObject.exportName env ob ov⟩ else AttrPlugin.empty) := by
  intro u du P mtl c
  have hname := nodeDesc_pluginName env ob ov P.1.geom mtl
  unfold exportObject
  simp only [h, Bool.not_true, Bool.false_eq_true, if_false]
  cases hg : P.1.geom.valid <;> cases hm : mtl.valid <;> cases hl : P.1.isMeshLight <;>
    cases hud : (u || du) <;> cases ho : ov.override <;>
    simp [c, P, mtl, u, du, hg, hm, hl, hud, ho, DataExporter.export_plugin,
      DataExporter.id_track_insert, hname] at * <;>
    simp_all [DataExporter.export_plugin, DataExporter.id_track_insert]

theorem is_updated_clean (ob : Object) (hu : ob.is_updated = false)
    (hp : ∀ p, ob.parent = some p → p.is_updated = false ∧ p.is_updated_data = false) :
    exportObject.is_updated ob true = false := by
  unfold exportObject.is_updated
  cases hpar : ob.parent with
  | none => simp [hu]
  | some p => simp [hu, (hp p hpar).1]

theorem is_data_updated_clean (ob : Object) (hd : ob.is_updated_data = false)
    (hp : ∀ p, ob.parent = some p → p.is_updated = false ∧ p.is_updated_data = false)
    (ht : ∀ t, ob.ntree = some t → t.is_updated = false) :
    exportObject.is_data_updated ob true = false := by
  unfold exportObject.is_data_updated
  cases hpar : ob.parent with
  | none =>
    cases htr : ob.ntree with
    | none => simp [hd]
    | some t => simp [hd, ht t htr]
  | some p =>
    cases htr : ob.ntree with
    | none => simp [hd, (hp p hpar).2]
    | some t => simp [hd, (hp p hpar).2, ht t htr]

theorem filter_linked_none (o : Option NodeSocket)
    (h : ∀ s, o = some s → s.is_linked = false) :
    o.filter (fun s => s.is_linked) = none := by
  cases o with
  | none => rfl
  | some s => simp [Option.filter, h s rfl]

theorem filter_linked_some (o : Option NodeSocket) (s : NodeSocket) (ho : o = some s)
    (h : s.is_linked = true) : o.filter (fun s => s.is_linked) = some s := by
  subst ho; simp [Option.filter, h]

theorem filter_linked_eq_some (o : Option NodeSocket) (s : NodeSocket)
    (h : o.filter (fun s => s.is_linked) = some s) : o = some s ∧ s.is_linked = true := by
  cases o with
  | none => simp [Option.filter] at h
  | some t =>
    by_cases ht : t.is_linked = true
    · simp [Option.filter, ht] at h; subst h; exact ⟨rfl, ht⟩
    · simp [Option.filter, ht] at h

theorem fromNtree_no_output (env : ExportEnv) (ob : Object) (ntree : NodeTree)
    (st : DataExporter) (h : Nodes.GetNodeByType ntree "VRayNodeObjectOutput" = none) :
    exportObject.fromNtree env ob ntree st =
      (⟨AttrPlugin.empty, AttrPlugin.empty, false⟩,
        st.print_error ("Object: " ++ ob.name ++ " Node tree: " ++ ntree.name ++
          " => Output node not found!")) := by
  simp [exportObject.fromNtree, h]

theorem fromNtree_no_geometry (env : ExportEnv) (ob : Object) (ntree : NodeTree)
    (st : DataExporter) (nodeOutput : Node)
    (h : Nodes.GetNodeByType ntree "VRayNodeObjectOutput" = some nodeOutput)
    (hg : ∀ s, Nodes.GetInputSocketByName nodeOutput "Geometry" = some s → s.is_linked = false) :
    exportObject.fromNtree env ob ntree st =
      (⟨AttrPlugin.empty, AttrPlugin.empty, false⟩,
        st.print_error ("Object: " ++ ob.name ++ " Node tree: " ++ ntree.name ++
          " => Geometry node is not set!")) := by
  simp [exportObject.fromNtree, h, filter_linked_none _ hg]

theorem fromNtree_lightmesh (env : ExportEnv) (ob : Object) (ntree : NodeTree)
    (st : DataExporter) (nodeOutput : Node) (geometrySocket : NodeSocket)
    (h : Nodes.GetNodeByType ntree "VRayNodeObjectOutput" = some nodeOutput)
    (hg : Nodes.GetInputSocketByName nodeOutput "Geometry" = some geometrySocket)
    (hl : geometrySocket.is_linked = true)
    (hv : (env.exportSocket ntree geometrySocket ob).plugin.valid = true)
    (hm : (env.getConnectedNode ntree geometrySocket ob).bl_idname = "VRayNodeLightMesh") :
    exportObject.fromNtree env ob ntree st =
      (⟨(env.exportSocket ntree geometrySocket ob).plugin, AttrPlugin.empty, true⟩,
        (st.sub (env.exportSocket ntree geometrySocket ob)).2.id_track_insert ob
          (env.exportSocket ntree geometrySocket ob).plugin.plugin IdTrackType.DEFAULT) := by
  simp [exportObject.fromNtree, h, filter_linked_some _ _ hg hl, DataExporter.sub, hv, hm]

theorem fromNtree_no_material (env : ExportEnv) (ob : Object) (ntree : NodeTree)
    (st : DataExporter) (nodeOutput : Node) (geometrySocket : NodeSocket)
    (h : Nodes.GetNodeByType ntree "VRayNodeObjectOutput" = some nodeOutput)
    (hg : Nodes.GetInputSocketByName nodeOutput "Geometry" = some geometrySocket)
    (hl : geometrySocket.is_linked = true)
    (hv : (env.exportSocket ntree geometrySocket ob).plugin.valid = true)
    (hm : (env.getConnectedNode ntree geometrySocket ob).bl_idname ≠ "VRayNodeLightMesh")
    (hmat : ∀ s, Nodes.GetInputSocketByName nodeOutput "Material" = some s →
      s.is_linked = false) :
    exportObject.fromNtree env ob ntree st =
      (⟨(env.exportSocket ntree geometrySocket ob).plugin, (env.exportMtlMulti ob).plugin, false⟩,
        (((st.sub (env.exportSocket ntree geometrySocket ob)).2.print_error
          ("Object: " ++ ob.name ++ " Node tree: " ++ ntree.name ++
            " => Material node is not set! Using object materials.")).sub
          (env.exportMtlMulti ob)).2) := by
  simp [exportObject.fromNtree, h, filter_linked_some _ _ hg hl, DataExporter.sub, hv, hm,
    filter_linked_none _ hmat]

/-- The node tree path touches the tracker only for a light mesh: then it records the
geometry plugin under the object, in the default category. -/
theorem fromNtree_track (env : ExportEnv) (ob : Object) (ntree : NodeTree)
    (st : DataExporter) :
    (exportObject.fromNtree env ob ntree st).2.m_id_track = st.m_id_track ∨
      ∃ nodeOutput geometrySocket,
        Nodes.GetNodeByType ntree "VRayNodeObjectOutput" = some nodeOutput ∧
        Nodes.GetInputSocketByName nodeOutput "Geometry" = some geometrySocket ∧
        geometrySocket.is_linked = true ∧
        (env.exportSocket ntree geometrySocket ob).plugin.valid = true ∧
        (env.getConnectedNode ntree geometrySocket ob).bl_idname = "VRayNodeLightMesh" ∧
        (exportObject.fromNtree env ob ntree st).2.m_id_track =
          (st.id_track_insert ob (env.exportSocket ntree geometrySocket ob).plugin.plugin
            IdTrackType.DEFAULT).m_id_track := by
  cases hout : Nodes.GetNodeByType ntree "VRayNodeObjectOutput" with
  | none => left; rw [fromNtree_no_output env ob ntree st hout]; rfl
  | some nodeOutput =>
    cases hgs : (Nodes.GetInputSocketByName nodeOutput "Geometry").filter
        (fun s => s.is_linked) with
    | none => left; simp [exportObject.fromNtree, hout, hgs, DataExporter.print_error]
    | some gs =>
      obtain ⟨hg, hl⟩ := filter_linked_eq_some _ _ hgs
      cases hv : (env.exportSocket ntree gs ob).plugin.valid with
      | false =>
        left
        simp [exportObject.fromNtree, hout, hgs, DataExporter.print_error, DataExporter.sub, hv]
      | true =>
        by_cases hm : (env.getConnectedNode ntree gs ob).bl_idname = "VRayNodeLightMesh"
        · right
          refine ⟨nodeOutput, gs, rfl, hg, hl, hv, hm, ?_⟩
          rw [fromNtree_lightmesh env ob ntree st nodeOutput gs hout hg hl hv hm]
          rfl
        · left
          simp only [exportObject.fromNtree, hout, hgs, DataExporter.sub, hv, beq_iff_eq, hm,
            Bool.not_true, Bool.false_eq_true, if_false]
          split
          · rfl
          · split <;> rfl

/-- A linked "Geometry" input is exported on every call, before anything else. -/
theorem fromNtree_geometry_exported (env : ExportEnv) (ob : Object) (ntree : NodeTree)
    (st : DataExporter) (nodeOutput : Node) (geometrySocket : NodeSocket)
    (h : Nodes.GetNodeByType ntree "VRayNodeObjectOutput" = some nodeOutput)
    (hg : Nodes.GetInputSocketByName nodeOutput "Geometry" = some geometrySocket)
    (hl : geometrySocket.is_linked = true) :
    ∃ rest : List PluginDesc,
      (exportObject.fromNtree env ob ntree st).2.m_exporter =
        st.m_exporter ++ (env.exportSocket ntree geometrySocket ob).descs.map .sub_export ++
          rest.map .sub_export := by
  simp only [exportObject.fromNtree, h, filter_linked_some _ _ hg hl, DataExporter.sub,
    DataExporter.print_error, DataExporter.id_track_insert]
  split
  · exact ⟨[], by simp⟩
  · split
    · exact ⟨[], by simp⟩
    · split
      · exact ⟨_, rfl⟩
      · split <;> exact ⟨_, rfl⟩

/-! ## Claims on `exportObject` -/

/-- C1 (amended): for an object with a data block, exported with `check_updated = true`
while neither the object, its data, its parent nor its node tree reports an update,
`exportObject` issues no `export_plugin` call of its own: the sink receives only what
sub-exporters submit.  Without node tree the sink receives nothing at all and, without
override, the tracker changes by the insertion of `getNodeName(ob)` for the object in the
default category.  With a node tree that has no output node, or whose "Geometry" input is
missing or unlinked, the sink receives nothing; with a linked "Geometry" input that socket
is exported again, whatever the flags. -/
theorem exportObject_clean (env : ExportEnv) (ob : Object) (ov : ObjectOverridesAttrs)
    (st : DataExporter) (hdata : ob.data = true) (hu : ob.is_updated = false)
    (hd : ob.is_updated_data = false)
    (hp : ∀ p, ob.parent = some p → p.is_updated = false ∧ p.is_updated_data = false)
    (ht : ∀ t, ob.ntree = some t → t.is_updated = false) :
    (∃ subs : List PluginDesc,
        (exportObject env ob true ov st).2.m_exporter = st.m_exporter ++ subs.map .sub_export) ∧
      (ob.ntree = none →
        (exportObject env ob true ov st).2.m_exporter = st.m_exporter ∧
        (ov.override = false →
          (exportObject env ob true ov st).2.m_id_track =
            (st.id_track_insert ob (env.getNodeName ob) IdTrackType.DEFAULT).m_id_track)) ∧
      (∀ ntree, ob.ntree = some ntree →
        (Nodes.GetNodeByType ntree "VRayNodeObjectOutput" = none ∨
          ∃ nodeOutput, Nodes.GetNodeByType ntree "VRayNodeObjectOutput" = some nodeOutput ∧
            ∀ s, Nodes.GetInputSocketByName nodeOutput "Geometry" = some s →
              s.is_linked = false) →
        (exportObject env ob true ov st).2.m_exporter = st.m_exporter) ∧
      (∀ ntree nodeOutput geometrySocket, ob.ntree = some ntree →
        Nodes.GetNodeByType ntree "VRayNodeObjectOutput" = some nodeOutput →
        Nodes.GetInputSocketByName nodeOutput "Geometry" = some geometrySocket →
        geometrySocket.is_linked = true →
        ∃ rest : List PluginDesc,
          (exportObject env ob true ov st).2.m_exporter =
            st.m_exporter ++ (env.exportSocket ntree geometrySocket ob).descs.map .sub_export ++
              rest.map .sub_export) := by
  have hU := is_updated_clean ob hu hp
  have hD := is_data_updated_clean ob hd hp ht
  obtain ⟨hex, htr, -, -⟩ := exportObject_spec env ob true ov st hdata
  simp only [hU, hD, Bool.or_self, Bool.and_false, Bool.false_and, Bool.false_eq_true,
    if_false, List.append_nil] at hex htr
  refine ⟨?_, ?_, ?_, ?_⟩
  · rw [hex]; exact parts_exporter env ob false false st
  · intro hnt
    have hparts : exportObject.parts env ob false false st =
        exportObject.direct env ob false false st := by
      simp [exportObject.parts, hnt]
    refine ⟨?_, ?_⟩
    · rw [hex, hparts, direct_exporter]; simp
    · intro hov
      rw [htr, hparts]
      simp only [hov, Bool.false_eq_true, if_false, exportObject.exportName,
        DataExporter.id_track_insert, direct_track]
  · intro ntree hnt hmiss
    have hparts : exportObject.parts env ob false false st =
        exportObject.fromNtree env ob ntree (st.tag_ntree ntree false) := by
      simp only [exportObject.parts, hnt]
    rw [hex, hparts]
    rcases hmiss with h | ⟨nodeOutput, h, hg⟩
    · rw [fromNtree_no_output env ob ntree _ h]; rfl
    · rw [fromNtree_no_geometry env ob ntree _ nodeOutput h hg]; rfl
  · intro ntree nodeOutput geometrySocket hnt hout hg hl
    have hparts : exportObject.parts env ob false false st =
        exportObject.fromNtree env ob ntree (st.tag_ntree ntree false) := by
      simp only [exportObject.parts, hnt]
    rw [hex, hparts]
    exact fromNtree_geometry_exported env ob ntree _ nodeOutput geometrySocket hout hg hl

/-- Witness of `exportObject_clean`: the clean "Cube" without node tree sends nothing and
records its node name; driven by a tree with an unlinked "Geometry" input it sends nothing;
driven by "Tree" with both inputs linked it has its "Geometry" socket exported. -/
theorem exportObject_clean_witness :
    ((exportObject envDemo (demoObject false false none) true ObjectOverridesAttrs.none
        DataExporter.init).2.m_exporter = [] ∧
      (exportObject envDemo (demoObject false false none) true ObjectOverridesAttrs.none
        DataExporter.init).2.m_id_track = [⟨"Cube", "Cube", IdTrackType.DEFAULT⟩]) ∧
    (exportObject envDemo (demoObject false false (some (demoTree "Tree" false true))) true
        ObjectOverridesAttrs.none DataExporter.init).2.m_exporter = [] ∧
    ∃ rest : List PluginDesc,
      (exportObject envDemo (demoObject false false (some (demoTree "Tree" true true))) true
        ObjectOverridesAttrs.none DataExporter.init).2.m_exporter =
      [] ++ [ExporterCall.sub_export (PluginDesc.new "Geometry@Cube" "NodeOutput")] ++
        rest.map .sub_export :=
  have h := exportObject_clean envDemo (demoObject false false none) ObjectOverridesAttrs.none
    DataExporter.init rfl rfl rfl (by intro p hp; cases hp) (by intro t ht; cases ht)
  have hu := exportObject_clean envDemo
    (demoObject false false (some (demoTree "Tree" false true)))
    ObjectOverridesAttrs.none DataExporter.init rfl rfl rfl (by intro p hp; cases hp)
    (by intro t ht; cases ht; rfl)
  have h' := exportObject_clean envDemo (demoObject false false (some (demoTree "Tree" true true)))
    ObjectOverridesAttrs.none DataExporter.init rfl rfl rfl (by intro p hp; cases hp)
    (by intro t ht; cases ht; rfl)
  ⟨⟨(h.2.1 rfl).1, (h.2.1 rfl).2 rfl⟩,
    hu.2.2.1 (demoTree "Tree" false true) rfl
      (Or.inr ⟨⟨"VRayNodeObjectOutput", [⟨"Geometry", false⟩, ⟨"Material", true⟩]⟩, rfl,
        fun s hs => by
          have hsock : Nodes.GetInputSocketByName
              ⟨"VRayNodeObjectOutput", [⟨"Geometry", false⟩, ⟨"Material", true⟩]⟩ "Geometry" =
              some ⟨"Geometry", false⟩ := by decide
          rw [hsock] at hs
          cases hs
          rfl⟩),
    h'.2.2.2 (demoTree "Tree" true true)
      ⟨"VRayNodeObjectOutput", [⟨"Geometry", true⟩, ⟨"Material", true⟩]⟩ ⟨"Geometry", true⟩
      rfl rfl (by decide) rfl⟩

/-- C1 (as stated) fails: the clean "Cube" gets the empty handle back, not the handle named
`getNodeName(ob)`; and a clean object with a clean node tree still has both of its sockets
exported to the sink. -/
theorem exportObject_clean_counterexample :
    ((demoObject false false none).data = true ∧
      (demoObject false false none).is_updated = false ∧
      (demoObject false false none).is_updated_data = false ∧
      (demoObject false false none).parent = none ∧
      (demoObject false false none).ntree = none) ∧
    (exportObject envDemo (demoObject false false none) true ObjectOverridesAttrs.none
        DataExporter.init).1 = .plugin AttrPlugin.empty ∧
    (exportObject envDemo (demoObject false false none) true ObjectOverridesAttrs.none
        DataExporter.init).1 ≠ .plugin ⟨envDemo.getNodeName (demoObject false false none)⟩ ∧
    (demoTree "Tree" true true).is_updated = false ∧
    (exportObject envDemo (demoObject false false (some (demoTree "Tree" true true))) true
        ObjectOverridesAttrs.none DataExporter.init).2.m_exporter =
      [.sub_export (PluginDesc.new "Geometry@Cube" "NodeOutput"),
        .sub_export (PluginDesc.new "Material@Cube" "NodeOutput")] := by
  decide

/-- C2: whatever the call, the sink receives, after the submissions of the sub-exporters, at
most one description submitted by `exportObject` itself; it is a `Node` named `exportName`,
its geometry and material are the resolved, non-empty handles (the material after the
default fallback), one of the two effective flags is set, and its handle is returned. -/
theorem exportObject_node_submission (env : ExportEnv) (ob : Object) (cu : Bool)
    (ov : ObjectOverridesAttrs) (st : DataExporter) :
    ∃ subs directs : List PluginDesc,
      (exportObject env ob cu ov st).2.m_exporter =
        st.m_exporter ++ subs.map .sub_export ++ directs.map .export_plugin ∧
      directs.length ≤ 1 ∧
      ∀ d ∈ directs,
        d.pluginName = exportObject.exportName env ob ov ∧ d.pluginID = "Node" ∧
        (∃ geom mtl : AttrPlugin,
          geom = (exportObject.parts env ob (exportObject.is_updated ob cu)
            (exportObject.is_data_updated ob cu) st).1.geom ∧
          mtl = exportObject.material env (exportObject.parts env ob
            (exportObject.is_updated ob cu) (exportObject.is_data_updated ob cu) st).1 ∧
          geom.valid = true ∧ mtl.valid = true ∧
          d.get "geometry" = some (.plugin geom) ∧ d.get "material" = some (.plugin mtl)) ∧
        (exportObject.is_updated ob cu = true ∨ exportObject.is_data_updated ob cu = true) ∧
        (exportObject env ob cu ov st).1 = .plugin ⟨d.pluginName⟩ := by
  cases hdata : ob.data with
  | false =>
    refine ⟨[], [], ?_, by simp, by simp⟩
    simp [exportObject_no_data env ob cu ov st hdata]
  | true =>
    obtain ⟨hex, -, -, hret⟩ := exportObject_spec env ob cu ov st hdata
    obtain ⟨subs, hsubs⟩ := parts_exporter env ob (exportObject.is_updated ob cu)
      (exportObject.is_data_updated ob cu) st
    split at hex
    · rename_i hc
      refine ⟨subs, [exportObject.nodeDesc env ob ov
        (exportObject.parts env ob (exportObject.is_updated ob cu)
          (exportObject.is_data_updated ob cu) st).1.geom
        (exportObject.material env (exportObject.parts env ob (exportObject.is_updated ob cu)
          (exportObject.is_data_updated ob cu) st).1)], ?_, by simp, ?_⟩
      · rw [hex, hsubs]; rfl
      · intro d hd
        rw [List.mem_singleton] at hd
        subst hd
        simp only [Bool.and_eq_true, Bool.or_eq_true] at hc
        refine ⟨nodeDesc_pluginName .., nodeDesc_pluginID .., ⟨_, _, rfl, rfl, hc.1.1.1,
          hc.1.1.2, nodeDesc_geometry .., nodeDesc_material ..⟩, hc.1.2, ?_⟩
        rw [hret, nodeDesc_pluginName]
        simp [hc]
    · refine ⟨subs, [], ?_, by simp, by simp⟩
      rw [hex, hsubs]; simp

/-- C7: the `Node` is exported under `namePrefix + getNodeName(ob)` with an override and
under `getNodeName(ob)` without one; two overrides with different prefixes give different
names, and a name with a non-empty prefix differs from the bare node name. -/
theorem exportObject_name_resolution (env : ExportEnv) (ob : Object)
    (ov1 ov2 ov0 : ObjectOverridesAttrs) (geom mtl : AttrPlugin)
    (h1 : ov1.override = true) (h2 : ov2.override = true) (h0 : ov0.override = false)
    (hne : ov1.namePrefix ≠ ov2.namePrefix) :
    (exportObject.nodeDesc env ob ov1 geom mtl).pluginName =
        ov1.namePrefix ++ env.getNodeName ob ∧
      (exportObject.nodeDesc env ob ov0 geom mtl).pluginName = env.getNodeName ob ∧
      exportObject.exportName env ob ov1 ≠ exportObject.exportName env ob ov2 ∧
      (ov1.namePrefix ≠ "" →
        exportObject.exportName env ob ov1 ≠ exportObject.exportName env ob ov0) := by
  refine ⟨?_, ?_, ?_, ?_⟩
  · rw [nodeDesc_pluginName]; simp [exportObject.exportName, h1]
  · rw [nodeDesc_pluginName]; simp [exportObject.exportName, h0]
  · simp only [exportObject.exportName, h1, h2, if_true]
    intro h
    apply hne
    have hd := congrArg String.data h
    simp only [String.data_append] at hd
    exact String.ext (List.append_cancel_right hd)
  · intro hp
    simp only [exportObject.exportName, h1, h0, if_true, Bool.false_eq_true, if_false]
    intro h
    apply hp
    have hd := congrArg String.data h
    simp only [String.data_append] at hd
    exact String.ext (by simpa using hd)

/-- Witness of `exportObject_name_resolution`: "Cube" under the prefixes "A_" and "B_". -/
theorem exportObject_name_resolution_witness :
    (exportObject.nodeDesc envDemo (demoObject true true none) (demoOverride "A_")
        ⟨"Geom@Cube"⟩ ⟨"Mtl@Cube"⟩).pluginName = "A_" ++ "Cube" ∧
      exportObject.exportName envDemo (demoObject true true none) (demoOverride "A_") ≠
        exportObject.exportName envDemo (demoObject true true none) (demoOverride "B_") ∧
      exportObject.exportName envDemo (demoObject true true none) (demoOverride "A_") ≠
        exportObject.exportName envDemo (demoObject true true none) ObjectOverridesAttrs.none :=
  have h := exportObject_name_resolution envDemo (demoObject true true none)
    (demoOverride "A_") (demoOverride "B_") ObjectOverridesAttrs.none ⟨"Geom@Cube"⟩
    ⟨"Mtl@Cube"⟩ rfl rfl rfl (by decide)
  ⟨h.1, h.2.2.1, h.2.2.2 (by decide)⟩

/-- C8: the effective "object changed" flag is set exactly when change tracking is off, the
object is updated, or it has a parent that is updated; the effective "data changed" flag
exactly when change tracking is off, the object data is updated, a parent has updated data,
or the object has a node tree that is updated; without change tracking both are set. -/
theorem exportObject_dirty_oracle (ob : Object) (check_updated : Bool) :
    (exportObject.is_updated ob check_updated = true ↔
      (check_updated = false ∨ ob.is_updated = true ∨
        ∃ parent, ob.parent = some parent ∧ parent.is_updated = true)) ∧
    (exportObject.is_data_updated ob check_updated = true ↔
      (check_updated = false ∨ ob.is_updated_data = true ∨
        (∃ parent, ob.parent = some parent ∧ parent.is_updated_data = true) ∨
        ∃ ntree, ob.ntree = some ntree ∧ ntree.is_updated = true)) ∧
    exportObject.is_updated ob false = true ∧
    exportObject.is_data_updated ob false = true := by
  refine ⟨?_, ?_, ?_, ?_⟩
  · unfold exportObject.is_updated
    cases check_updated <;> cases hp : ob.parent <;> cases hu : ob.is_updated <;> simp
  · unfold exportObject.is_data_updated
    cases check_updated <;> cases hp : ob.parent <;> cases hn : ob.ntree <;>
      cases hu : ob.is_updated_data <;> simp
  · unfold exportObject.is_updated
    cases hp : ob.parent <;> simp
  · unfold exportObject.is_data_updated
    cases hp : ob.parent <;> cases hn : ob.ntree <;> simp

/-- C3 (code at the failing input): "Cube" has direct mesh data, only its data changed, and
its own material would resolve to "Mtl@Cube"; the `Node` is submitted with the default
material, because `exportMtlMulti` is skipped.  The same flags on the node tree path (with an
unlinked "Material" input) submit the `Node` with "Mtl@Cube". -/
theorem exportObject_data_update_default_material :
    (envDemo.exportMtlMulti (demoObject false true none)).plugin.valid = true ∧
    (exportObject envDemo (demoObject false true none) true ObjectOverridesAttrs.none
        DataExporter.init).2.m_exporter =
      [.sub_export (PluginDesc.new "Geom@Cube" "GeomStaticMesh"),
        .export_plugin (exportObject.nodeDesc envDemo (demoObject false true none)
          ObjectOverridesAttrs.none ⟨"Geom@Cube"⟩ envDemo.getDefaultMaterial)] ∧
    (exportObject.nodeDesc envDemo (demoObject false true none) ObjectOverridesAttrs.none
        ⟨"Geom@Cube"⟩ envDemo.getDefaultMaterial).get "material" =
      some (.plugin ⟨"DefaultMtl"⟩) ∧
    (exportObject envDemo (demoObject false true (some (demoTree "Tree" true false))) true
        ObjectOverridesAttrs.none DataExporter.init).2.m_exporter =
      [.sub_export (PluginDesc.new "Geometry@Cube" "NodeOutput"),
        .sub_export (PluginDesc.new "Mtl@Cube" "MtlMulti"),
        .export_plugin (exportObject.nodeDesc envDemo
          (demoObject false true (some (demoTree "Tree" true false)))
          ObjectOverridesAttrs.none ⟨"Geometry@Cube"⟩ ⟨"Mtl@Cube"⟩)] := by
  decide

/-- C4 (amended): for an object driven by a node tree, (a) when the tree has no
`VRayNodeObjectOutput` node, or the "Geometry" input of that node is missing or unlinked,
`exportObject` prints one error, sends nothing to the sink and returns the empty handle;
(b) when the geometry resolves from a node that is not a light mesh and only the "Material"
input is missing or unlinked, the error is printed and the object's own materials
(`exportMtlMulti`, else the default material) are used: the `Node` is still submitted, and
its handle returned, whenever that material is non-empty and a flag is set. -/
theorem exportObject_ntree_missing_inputs (env : ExportEnv) (ob : Object) (ntree : NodeTree)
    (cu : Bool) (ov : ObjectOverridesAttrs) (st : DataExporter) :
    (ob.data = true → ob.ntree = some ntree →
      (Nodes.GetNodeByType ntree "VRayNodeObjectOutput" = none ∨
        ∃ nodeOutput, Nodes.GetNodeByType ntree "VRayNodeObjectOutput" = some nodeOutput ∧
          ∀ s, Nodes.GetInputSocketByName nodeOutput "Geometry" = some s →
            s.is_linked = false) →
      (exportObject env ob cu ov st).1 = .plugin AttrPlugin.empty ∧
        (exportObject env ob cu ov st).2.m_exporter = st.m_exporter ∧
        ∃ msg, (exportObject env ob cu ov st).2.errors = st.errors ++ [msg]) ∧
    (∀ nodeOutput geometrySocket, ob.data = true → ob.ntree = some ntree →
      Nodes.GetNodeByType ntree "VRayNodeObjectOutput" = some nodeOutput →
      Nodes.GetInputSocketByName nodeOutput "Geometry" = some geometrySocket →
      geometrySocket.is_linked = true →
      (env.exportSocket ntree geometrySocket ob).plugin.valid = true →
      (env.getConnectedNode ntree geometrySocket ob).bl_idname ≠ "VRayNodeLightMesh" →
      (∀ s, Nodes.GetInputSocketByName nodeOutput "Material" = some s → s.is_linked = false) →
      (exportObject env ob cu ov st).2.errors =
          st.errors ++ ["Object: " ++ ob.name ++ " Node tree: " ++ ntree.name ++
            " => Material node is not set! Using object materials."] ∧
        ∃ mtl : AttrPlugin,
          mtl = (if (env.exportMtlMulti ob).plugin.valid then (env.exportMtlMulti ob).plugin
            else env.getDefaultMaterial) ∧
          (exportObject env ob cu ov st).2.m_exporter =
            st.m_exporter ++ (env.exportSocket ntree geometrySocket ob).descs.map .sub_export ++
              (env.exportMtlMulti ob).descs.map .sub_export ++
              (if mtl.valid && (exportObject.is_updated ob cu ||
                  exportObject.is_data_updated ob cu) then
                [.export_plugin (exportObject.nodeDesc env ob ov
                  (env.exportSocket ntree geometrySocket ob).plugin mtl)]
              else []) ∧
          (exportObject env ob cu ov st).1 =
            .plugin (if mtl.valid && (exportObject.is_updated ob cu ||
                exportObject.is_data_updated ob cu) then
              ⟨exportObject.exportName env ob ov⟩ else AttrPlugin.empty)) := by
  constructor
  · intro hdata hnt hmiss
    obtain ⟨hex, -, herr, hret⟩ := exportObject_spec env ob cu ov st hdata
    have hparts : ∃ msg, exportObject.parts env ob (exportObject.is_updated ob cu)
        (exportObject.is_data_updated ob cu) st =
        (⟨AttrPlugin.empty, AttrPlugin.empty, false⟩,
          (st.tag_ntree ntree false).print_error msg) := by
      rcases hmiss with h | ⟨nodeOutput, h, hg⟩
      · exact ⟨_, by simp only [exportObject.parts, hnt]; exact fromNtree_no_output env ob ntree _ h⟩
      · exact ⟨_, by
          simp only [exportObject.parts, hnt]
          exact fromNtree_no_geometry env ob ntree _ nodeOutput h hg⟩
    obtain ⟨msg, hparts⟩ := hparts
    rw [hparts] at hex herr hret
    have hinv : AttrPlugin.empty.valid = false := by decide
    simp only [hinv, Bool.false_and, Bool.false_eq_true, if_false, List.append_nil] at hex hret
    exact ⟨hret, hex, msg, herr⟩
  · intro nodeOutput geometrySocket hdata hnt hout hg hl hv hm hmat
    obtain ⟨hex, -, herr, hret⟩ := exportObject_spec env ob cu ov st hdata
    have hP : exportObject.parts env ob (exportObject.is_updated ob cu)
        (exportObject.is_data_updated ob cu) st =
        exportObject.fromNtree env ob ntree (st.tag_ntree ntree false) := by
      simp only [exportObject.parts, hnt]
    have hparts := fromNtree_no_material env ob ntree (st.tag_ntree ntree false) nodeOutput
      geometrySocket hout hg hl hv hm hmat
    rw [hP, hparts] at hex herr hret
    refine ⟨herr, _, rfl, ?_, ?_⟩
    · rw [hex]
      simp only [exportObject.material, DataExporter.sub, DataExporter.print_error,
        DataExporter.tag_ntree, hv, Bool.true_and, Bool.not_false, Bool.and_true]
      cases hmv : (env.exportMtlMulti ob).plugin.valid <;> simp
    · rw [hret]
      simp only [exportObject.material, hv, Bool.true_and, Bool.not_false, Bool.and_true]
      cases hmv : (env.exportMtlMulti ob).plugin.valid <;> simp

/-- Witness of `exportObject_ntree_missing_inputs`: "Cube" with an unlinked "Geometry" input
exports nothing; with only the "Material" input unlinked the error is printed. -/
theorem exportObject_ntree_missing_inputs_witness :
    ((exportObject envDemo (demoObject true true (some (demoTree "Tree" false true))) false
        ObjectOverridesAttrs.none DataExporter.init).1 = .plugin AttrPlugin.empty ∧
      (exportObject envDemo (demoObject true true (some (demoTree "Tree" false true))) false
        ObjectOverridesAttrs.none DataExporter.init).2.m_exporter = []) ∧
    (exportObject envDemo (demoObject true true (some (demoTree "Tree" true false))) false
        ObjectOverridesAttrs.none DataExporter.init).2.errors =
      ["Object: Cube Node tree: Tree => Material node is not set! Using object materials."] :=
  have ha := (exportObject_ntree_missing_inputs envDemo
    (demoObject true true (some (demoTree "Tree" false true))) (demoTree "Tree" false true)
    false ObjectOverridesAttrs.none DataExporter.init).1 rfl rfl
    (Or.inr ⟨⟨"VRayNodeObjectOutput", [⟨"Geometry", false⟩, ⟨"Material", true⟩]⟩, rfl,
      fun s hs => by
        have hsock : Nodes.GetInputSocketByName
            ⟨"VRayNodeObjectOutput", [⟨"Geometry", false⟩, ⟨"Material", true⟩]⟩ "Geometry" =
            some ⟨"Geometry", false⟩ := by decide
        rw [hsock] at hs
        cases hs
        rfl⟩)
  have hb := (exportObject_ntree_missing_inputs envDemo
    (demoObject true true (some (demoTree "Tree" true false))) (demoTree "Tree" true false)
    false ObjectOverridesAttrs.none DataExporter.init).2
    ⟨"VRayNodeObjectOutput", [⟨"Geometry", true⟩, ⟨"Material", false⟩]⟩ ⟨"Geometry", true⟩
    rfl rfl rfl (by decide) rfl (by decide) (by decide)
    (fun s hs => by
      have hsock : Nodes.GetInputSocketByName
          ⟨"VRayNodeObjectOutput", [⟨"Geometry", true⟩, ⟨"Material", false⟩]⟩ "Material" =
          some ⟨"Material", false⟩ := by decide
      rw [hsock] at hs
      cases hs
      rfl)
  ⟨⟨ha.1, ha.2.1⟩, hb.1⟩

/-- C4 (as stated) fails: with the "Material" input of the output node unlinked, the forced
export of "Cube" prints the error but still submits the `Node` (with the object's own
material) and returns its handle. -/
theorem exportObject_ntree_missing_inputs_counterexample :
    (Nodes.GetNodeByType (demoTree "Tree" true false) "VRayNodeObjectOutput").bind
        (fun nodeOutput => Nodes.GetInputSocketByName nodeOutput "Material") =
      some ⟨"Material", false⟩ ∧
    (exportObject envDemo (demoObject true true (some (demoTree "Tree" true false))) false
        ObjectOverridesAttrs.none DataExporter.init).1 = .plugin ⟨"Cube"⟩ ∧
    (exportObject envDemo (demoObject true true (some (demoTree "Tree" true false))) false
        ObjectOverridesAttrs.none DataExporter.init).2.m_exporter =
      [.sub_export (PluginDesc.new "Geometry@Cube" "NodeOutput"),
        .sub_export (PluginDesc.new "Mtl@Cube" "MtlMulti"),
        .export_plugin (exportObject.nodeDesc envDemo
          (demoObject true true (some (demoTree "Tree" true false)))
          ObjectOverridesAttrs.none ⟨"Geometry@Cube"⟩ ⟨"Mtl@Cube"⟩)] := by
  decide

/-- C6 (amended): an `exportObject` call made with an override leaves the id tracker
unchanged, with no entry inserted under the plain object key, for every object with direct
mesh data and for every node tree whose linked "Geometry" input does not resolve to a
non-empty plugin of a `VRayNodeLightMesh` node. -/
theorem exportObject_override_track (env : ExportEnv) (ob : Object) (cu : Bool)
    (ov : ObjectOverridesAttrs) (st : DataExporter) (hov : ov.override = true)
    (hnl : ∀ ntree nodeOutput geometrySocket, ob.ntree = some ntree →
      Nodes.GetNodeByType ntree "VRayNodeObjectOutput" = some nodeOutput →
      Nodes.GetInputSocketByName nodeOutput "Geometry" = some geometrySocket →
      geometrySocket.is_linked = true →
      (env.exportSocket ntree geometrySocket ob).plugin.valid = true →
      (env.getConnectedNode ntree geometrySocket ob).bl_idname ≠ "VRayNodeLightMesh") :
    (exportObject env ob cu ov st).2.m_id_track = st.m_id_track := by
  cases hdata : ob.data with
  | false => rw [exportObject_no_data env ob cu ov st hdata]
  | true =>
    obtain ⟨-, htr, -, -⟩ := exportObject_spec env ob cu ov st hdata
    simp only [hov, if_true] at htr
    rw [htr]
    cases hnt : ob.ntree with
    | none =>
      simp only [exportObject.parts, hnt]
      exact direct_track ..
    | some ntree =>
      simp only [exportObject.parts, hnt]
      rcases fromNtree_track env ob ntree (st.tag_ntree ntree false) with
        h | ⟨o, g, hout, hg, hl, hv, hm, -⟩
      · rw [h]; rfl
      · exact absurd hm (hnl ntree o g hnt hout hg hl hv)

/-- Witness of `exportObject_override_track`: the instances "A_Cube" of the mesh "Cube" and
of the "Cube" driven by "Tree" (no light mesh) leave the tracker empty. -/
theorem exportObject_override_track_witness :
    (demoOverride "A_").override = true ∧
    (exportObject envDemo (demoObject true true none) false (demoOverride "A_")
        DataExporter.init).2.m_id_track = [] ∧
    (exportObject envDemo (demoObject true true (some (demoTree "Tree" true true))) false
        (demoOverride "A_") DataExporter.init).2.m_id_track = [] :=
  ⟨rfl, exportObject_override_track envDemo (demoObject true true none) false
      (demoOverride "A_") DataExporter.init rfl (fun _ _ _ h => by cases h),
    exportObject_override_track envDemo (demoObject true true (some (demoTree "Tree" true true)))
      false (demoOverride "A_") DataExporter.init rfl
      (fun ntree _ geometrySocket h _ _ _ _ => by cases h; simp [envDemo, demoTree])⟩

/-- C6 (as stated) fails: an instance of an object whose node tree geometry is a light mesh
records the geometry plugin in the id tracker under the plain object. -/
theorem exportObject_override_track_counterexample :
    (demoOverride "A_").override = true ∧
    (exportObject envDemo (demoObject true true (some (demoTree "LightTree" true true))) false
        (demoOverride "A_") DataExporter.init).2.m_id_track =
      [⟨"Cube", "Geometry@Cube", IdTrackType.DEFAULT⟩] ∧
    (exportObject envDemo (demoObject true true (some (demoTree "LightTree" true true))) false
        (demoOverride "A_") DataExporter.init).2.m_id_track ≠ DataExporter.init.m_id_track := by
  decide

theorem add_pluginName (d : PluginDesc) (attr : String) (v : AttrValue) :
    (d.add attr v).pluginName = d.pluginName := rfl

theorem clipper_nodeDesc_pluginName (env : ExportEnv) (ob : Object) (material : AttrPlugin) :
    (exportVRayClipper.nodeDesc env ob material).pluginName = "Clipper@" ++ ob.name := by
  unfold exportVRayClipper.nodeDesc exportVRayClipper.exclusion
  simp only []
  split <;> split <;> split <;> simp [add_pluginName, PluginDesc.new]

/-- The clipper export records its name first; on the dirty path it exports the material and
submits one `VRayClipper` description. -/
theorem exportVRayClipper_spec (env : ExportEnv) (ob : Object) (cu : Bool)
    (ov : ObjectOverridesAttrs) (st : DataExporter) :
    (exportVRayClipper env ob cu ov st).2.m_id_track =
        (st.id_track_insert ob ("Clipper@" ++ ob.name) IdTrackType.CLIPPER).m_id_track ∧
      (exportVRayClipper env ob cu ov st).2.m_exporter =
        st.m_exporter ++
          (if cu && !ob.is_updated && !ob.is_updated_data then []
            else (env.exportMtlMulti ob).descs.map .sub_export ++
              [.export_plugin (exportVRayClipper.nodeDesc env ob
                (env.exportMtlMulti ob).plugin)]) := by
  unfold exportVRayClipper
  cases cu <;> cases hu : ob.is_updated <;> cases hd : ob.is_updated_data <;>
    simp [DataExporter.sub, DataExporter.export_plugin, DataExporter.id_track_insert]

theorem hair_geom_frame (env : ExportEnv) (ob : Object) (psm : ParticleSystemModifier)
    (psys : ParticleSystem) (pset : ParticleSettings) (du : Bool) (st : DataExporter) :
    (exportHair.geom env ob psm psys pset du st).2.m_id_track = st.m_id_track ∧
      ∃ subs : List PluginDesc,
        (exportHair.geom env ob psm psys pset du st).2.m_exporter =
          st.m_exporter ++ subs.map .sub_export := by
  unfold exportHair.geom
  cases du
  · exact ⟨rfl, [], by simp⟩
  · exact ⟨rfl, _, rfl⟩

/-- Taking the snapshot only prints errors: nothing is sent to the exporter. -/
theorem viewParams_exporter (host : SceneHost) (st ex : DataExporter) (vp : ViewParams)
    (h : sync_view.viewParams host st = some (vp, ex)) : ex.m_exporter = st.m_exporter := by
  unfold sync_view.viewParams at h
  simp only [Option.map_eq_some', Prod.exists] at h
  obtain ⟨vp0, ex0, h0, h1⟩ := h
  simp only [Prod.mk.injEq] at h1
  obtain ⟨-, rfl⟩ := h1
  split at h0
  · unfold get_view_from_viewport at h0
    split at h0
    · split at h0
      · split at h0 <;> cases h0 <;> rfl
      · cases h0; rfl
    · split at h0
      · cases h0
      · split at h0
        · cases h0
        · cases h0; rfl
  · split at h0 <;> cases h0 <;> rfl

/-- The calls of a pass, in order: the hooks, the reset calls, the camera description (the
physical camera when the snapshot asks for it and the camera object has data, the default
camera otherwise), the `RenderView` description, the restart. -/
theorem update_exporter (differ : ViewDiffer) (vp : ViewParams) (se : SceneExporter) :
    (sync_view.update differ vp se).m_data_exporter.m_exporter =
      se.m_data_exporter.m_exporter ++
        ((if differ.changedSize se.m_viewParams vp then
            [ExporterCall.resize vp.renderSize.w vp.renderSize.h] else []) ++
          (if differ.changedViewPosition se.m_viewParams vp then [ExporterCall.tag_redraw]
            else [])) ++
        (if differ.needReset se.m_viewParams vp then
          [.stop, .remove_plugin "renderView", .remove_plugin "cameraDefault",
            .remove_plugin "cameraPhysical"] else []) ++
        (((if vp.usePhysicalCamera then
            ((vp.cameraObject.bind (fun ob => ob.data)).map
              (exportCameraPhysical.physCamDesc vp)).toList
            else [exportCameraDefault.defCamDesc vp]) ++
          (if differ.needReset se.m_viewParams vp || differ.changedParams se.m_viewParams vp
            then [exportRenderView.viewDesc vp] else [])).map .export_plugin) ++
        (if differ.needReset se.m_viewParams vp then [.start] else []) := by
  unfold sync_view.update
  simp only [DataExporter.call, exportCameraPhysical, exportCameraDefault, exportRenderView,
    DataExporter.export_plugin, ViewParams.renderViewPluginName,
    ViewParams.defaultCameraPluginName, ViewParams.physicalCameraPluginName]
  cases differ.changedSize se.m_viewParams vp <;>
    cases differ.changedViewPosition se.m_viewParams vp <;>
    cases differ.needReset se.m_viewParams vp <;>
    cases differ.changedParams se.m_viewParams vp <;>
    cases vp.usePhysicalCamera <;>
    cases vp.cameraObject.bind (fun ob => ob.data) <;> simp

/-- The snapshot of a pass uses the physical camera exactly when `is_physical_view` says so
for its camera object. -/
theorem viewParams_physical (host : SceneHost) (st ex : DataExporter) (vp : ViewParams)
    (h : sync_view.viewParams host st = some (vp, ex)) :
    vp.usePhysicalCamera = is_physical_view vp.cameraObject := by
  unfold sync_view.viewParams at h
  simp only [Option.map_eq_some', Prod.exists] at h
  obtain ⟨vp0, ex0, -, h1⟩ := h
  simp only [Prod.mk.injEq] at h1
  obtain ⟨rfl, -⟩ := h1
  rfl

theorem is_physical_view_data (cameraObject : Option CameraObject)
    (h : is_physical_view cameraObject = true) :
    ∃ cameraData, cameraObject.bind (fun ob => ob.data) = some cameraData := by
  cases cameraObject with
  | none => simp [is_physical_view] at h
  | some ob =>
    cases hd : ob.data with
    | none => simp [is_physical_view, hd] at h
    | some cameraData => exact ⟨cameraData, by simp [hd]⟩

/-- Every pass submits exactly one camera description. -/
theorem camera_desc (host : SceneHost) (st ex : DataExporter) (vp : ViewParams)
    (h : sync_view.viewParams host st = some (vp, ex)) :
    ∃ camDesc : PluginDesc,
      (if vp.usePhysicalCamera then
        ((vp.cameraObject.bind (fun ob => ob.data)).map
          (exportCameraPhysical.physCamDesc vp)).toList
        else [exportCameraDefault.defCamDesc vp]) = [camDesc] ∧
      (vp.usePhysicalCamera = false →
        camDesc = exportCameraDefault.defCamDesc vp ∧ camDesc.pluginName = "cameraDefault") ∧
      (vp.usePhysicalCamera = true →
        camDesc.pluginName = "cameraPhysical" ∧
        ∃ cameraData, vp.cameraObject.bind (fun ob => ob.data) = some cameraData ∧
          camDesc = exportCameraPhysical.physCamDesc vp cameraData) := by
  cases hU : vp.usePhysicalCamera with
  | false =>
    exact ⟨exportCameraDefault.defCamDesc vp, by simp, fun _ => ⟨rfl, rfl⟩,
      fun hc => by cases hc⟩
  | true =>
    have hp := viewParams_physical host st ex vp h
    rw [hU] at hp
    obtain ⟨cameraData, hcd⟩ := is_physical_view_data _ hp.symm
    exact ⟨exportCameraPhysical.physCamDesc vp cameraData, by simp [hcd],
      fun hc => (by cases hc), fun _ => ⟨rfl, cameraData, hcd, rfl⟩⟩

/-- C10 (amended): a view sync whose snapshot could be taken calls, after the optional
`resize` and `tag_redraw`, the exporter as follows.  When `needReset` holds: `stop`, then the
removal of "renderView", "cameraDefault" and "cameraPhysical", then the submission of the
camera description ("cameraPhysical" when the snapshot uses the physical camera,
"cameraDefault" otherwise) and of the `RenderView` description, and only then `start`.
When `needReset` does not hold: the camera description and, when `changedParams` holds, the
`RenderView` description, and none of `stop`, `start`, `remove_plugin`. -/
theorem sync_view_reset_order (differ : ViewDiffer) (host : SceneHost) (self : SceneExporter)
    (vp : ViewParams) (ex : DataExporter)
    (hvp : sync_view.viewParams host self.m_data_exporter = some (vp, ex)) :
    ∃ (r : SceneExporter) (hooks : List ExporterCall) (camDesc : PluginDesc),
      sync_view differ host self = some r ∧
      (∀ c ∈ hooks, c = .tag_redraw ∨ c = .resize vp.renderSize.w vp.renderSize.h) ∧
      (vp.usePhysicalCamera = false →
        camDesc = exportCameraDefault.defCamDesc vp ∧ camDesc.pluginName = "cameraDefault") ∧
      (vp.usePhysicalCamera = true →
        camDesc.pluginName = "cameraPhysical" ∧
        ∃ cameraData, vp.cameraObject.bind (fun ob => ob.data) = some cameraData ∧
          camDesc = exportCameraPhysical.physCamDesc vp cameraData) ∧
      (exportRenderView.viewDesc vp).pluginName = "renderView" ∧
      (differ.needReset self.m_viewParams vp = true →
        r.m_data_exporter.m_exporter =
          self.m_data_exporter.m_exporter ++ hooks ++
            [.stop, .remove_plugin "renderView", .remove_plugin "cameraDefault",
              .remove_plugin "cameraPhysical"] ++
            [.export_plugin camDesc, .export_plugin (exportRenderView.viewDesc vp)] ++
            [.start]) ∧
      (differ.needReset self.m_viewParams vp = false →
        r.m_data_exporter.m_exporter =
          self.m_data_exporter.m_exporter ++ hooks ++
            (ExporterCall.export_plugin camDesc ::
              (if differ.changedParams self.m_viewParams vp then
                [ExporterCall.export_plugin (exportRenderView.viewDesc vp)] else []))) := by
  have hex := viewParams_exporter host _ ex vp hvp
  have hupd := update_exporter differ vp { self with m_data_exporter := ex }
  obtain ⟨camDesc, hcam, hdef, hphys⟩ := camera_desc host _ ex vp hvp
  simp only [hex, hcam] at hupd
  refine ⟨sync_view.update differ vp { self with m_data_exporter := ex },
    (if differ.changedSize self.m_viewParams vp then
        [ExporterCall.resize vp.renderSize.w vp.renderSize.h] else []) ++
      (if differ.changedViewPosition self.m_viewParams vp then [ExporterCall.tag_redraw]
        else []),
    camDesc, by simp [sync_view, hvp], ?_, hdef, hphys, rfl, ?_, ?_⟩
  · intro c hc
    simp only [List.mem_append] at hc
    rcases hc with hc | hc
    · split at hc
      · right; simpa using hc
      · cases hc
    · split at hc
      · left; simpa using hc
      · cases hc
  · intro hr
    rw [hupd]; simp [hr]
  · intro hr
    rw [hupd]
    cases differ.changedParams self.m_viewParams vp <;> simp [hr]

/-- Witness of `sync_view_reset_order`: the first sync of a final render through the scene
camera. -/
theorem sync_view_reset_order_witness :
    ∃ r, sync_view differReset demoHost demoScene = some r :=
  have ⟨r, _, _, h, _⟩ := sync_view_reset_order differReset demoHost demoScene _ _ rfl
  ⟨r, h⟩

/-- C10 (as stated) fails: in a pass that needs a reset the session is stopped and the three
plugins are removed first, but `start` is called last, after the fresh "cameraDefault" and
"renderView" descriptions were submitted. -/
theorem sync_view_reset_order_counterexample :
    differReset.needReset demoScene.m_viewParams ViewParams.new = true ∧
    (sync_view differReset demoHost demoScene).map (fun r => r.m_data_exporter.m_exporter) =
      some [.stop, .remove_plugin "renderView", .remove_plugin "cameraDefault",
        .remove_plugin "cameraPhysical",
        .export_plugin ⟨"cameraDefault", "CameraDefault", [("orthographic", .bool false)]⟩,
        .export_plugin ⟨"renderView", "RenderView",
          [("transform", .transform ⟨[]⟩), ("fov", .float 0), ("clipping", .bool false),
            ("clipping_near", .float 0), ("clipping_far", .float 0),
            ("orthographic", .bool false), ("orthographicWidth", .float 0)]⟩,
        .start] := by
  decide

/-- C11 (amended): a view sync in which only the view position changed calls `tag_redraw`
and then submits the camera description again ("cameraPhysical" when the snapshot uses the
physical camera, "cameraDefault" otherwise), and nothing else: it does not resize, stop,
start or remove anything and submits no `RenderView` description. -/
theorem sync_view_position_only (differ : ViewDiffer) (host : SceneHost) (self : SceneExporter)
    (vp : ViewParams) (ex : DataExporter)
    (hvp : sync_view.viewParams host self.m_data_exporter = some (vp, ex))
    (hpos : differ.changedViewPosition self.m_viewParams vp = true)
    (hsize : differ.changedSize self.m_viewParams vp = false)
    (hpar : differ.changedParams self.m_viewParams vp = false)
    (hres : differ.needReset self.m_viewParams vp = false) :
    ∃ (r : SceneExporter) (camDesc : PluginDesc),
      sync_view differ host self = some r ∧
      r.m_data_exporter.m_exporter =
        self.m_data_exporter.m_exporter ++ [.tag_redraw, .export_plugin camDesc] ∧
      (vp.usePhysicalCamera = false →
        camDesc = exportCameraDefault.defCamDesc vp ∧ camDesc.pluginName = "cameraDefault") ∧
      (vp.usePhysicalCamera = true →
        camDesc.pluginName = "cameraPhysical" ∧
        ∃ cameraData, vp.cameraObject.bind (fun ob => ob.data) = some cameraData ∧
          camDesc = exportCameraPhysical.physCamDesc vp cameraData) := by
  have hex := viewParams_exporter host _ ex vp hvp
  have hupd := update_exporter differ vp { self with m_data_exporter := ex }
  obtain ⟨camDesc, hcam, hdef, hphys⟩ := camera_desc host _ ex vp hvp
  simp only [hex, hcam, hpos, hsize, hpar, hres, Bool.false_eq_true, if_false, if_true,
    Bool.or_self, List.nil_append, List.append_nil, List.map_cons, List.map_nil,
    List.append_assoc, List.singleton_append] at hupd
  exact ⟨sync_view.update differ vp { self with m_data_exporter := ex }, camDesc,
    by simp [sync_view, hvp], hupd, hdef, hphys⟩

/-- Witness of `sync_view_position_only`: a moved view in a final render through the scene
camera. -/
theorem sync_view_position_only_witness :
    sync_view.viewParams demoHost demoScene.m_data_exporter =
      some (demoSnapshot, DataExporter.init) ∧
    differPosition.changedViewPosition demoScene.m_viewParams demoSnapshot = true ∧
    ∃ r, sync_view differPosition demoHost demoScene = some r :=
  have ⟨r, _, h, _⟩ := sync_view_position_only differPosition demoHost demoScene demoSnapshot
    DataExporter.init rfl rfl rfl rfl rfl
  ⟨rfl, rfl, r, h⟩

/-- C11 (as stated) fails: a pass in which only the view position changed still submits the
"cameraDefault" description after `tag_redraw`. -/
theorem sync_view_position_only_counterexample :
    sync_view.viewParams demoHost demoScene.m_data_exporter =
      some (demoSnapshot, DataExporter.init) ∧
    (differPosition.changedViewPosition demoScene.m_viewParams demoSnapshot = true ∧
      differPosition.changedSize demoScene.m_viewParams demoSnapshot = false ∧
      differPosition.changedParams demoScene.m_viewParams demoSnapshot = false ∧
      differPosition.needReset demoScene.m_viewParams demoSnapshot = false) ∧
    (sync_view differPosition demoHost demoScene).map (fun r => r.m_data_exporter.m_exporter) =
      some [.tag_redraw,
        .export_plugin ⟨"cameraDefault", "CameraDefault", [("orthographic", .bool false)]⟩] := by
  decide

/-! ## The clipper export -/

theorem clipper_nodeDesc_pluginID (env : ExportEnv) (ob : Object) (material : AttrPlugin) :
    (exportVRayClipper.nodeDesc env ob material).pluginID = "VRayClipper" := by
  unfold exportVRayClipper.nodeDesc exportVRayClipper.exclusion
  simp only []
  split <;> split <;> split <;> simp [PluginDesc.add, PluginDesc.new]

/-- The two paths of the clipper export.  Clean (`check_updated = true`, no flag set): the
`std::string` `pluginName` is returned, converted to an `AttrValue`, and the exporter changes
only by the insertion of that name under `IdTrack::CLIPPER`.  Dirty: the same insertion, the
material export, and exactly one `VRayClipper` description of that name, whose handle is
returned. -/
theorem exportVRayClipper_paths (env : ExportEnv) (ob : Object) (cu : Bool)
    (ov : ObjectOverridesAttrs) (st : DataExporter) :
    (cu = true → ob.is_updated = false → ob.is_updated_data = false →
      exportVRayClipper env ob cu ov st =
        (.string ("Clipper@" ++ ob.name),
          st.id_track_insert ob ("Clipper@" ++ ob.name) IdTrackType.CLIPPER)) ∧
    ((cu = false ∨ ob.is_updated = true ∨ ob.is_updated_data = true) →
      ∃ d : PluginDesc,
        d.pluginName = "Clipper@" ++ ob.name ∧ d.pluginID = "VRayClipper" ∧
        (exportVRayClipper env ob cu ov st).1 = .plugin ⟨"Clipper@" ++ ob.name⟩ ∧
        (exportVRayClipper env ob cu ov st).2.m_exporter =
          st.m_exporter ++ (env.exportMtlMulti ob).descs.map .sub_export ++
            [.export_plugin d] ∧
        (exportVRayClipper env ob cu ov st).2.m_id_track =
          (st.id_track_insert ob ("Clipper@" ++ ob.name) IdTrackType.CLIPPER).m_id_track) := by
  constructor
  · intro hcu hu hd
    simp [exportVRayClipper, hcu, hu, hd]
  · intro h
    refine ⟨exportVRayClipper.nodeDesc env ob (env.exportMtlMulti ob).plugin,
      clipper_nodeDesc_pluginName .., clipper_nodeDesc_pluginID .., ?_, ?_, ?_⟩
    · have hname := clipper_nodeDesc_pluginName env ob (env.exportMtlMulti ob).plugin
      unfold exportVRayClipper
      rcases h with h | h | h <;>
        cases cu <;> cases hu : ob.is_updated <;> cases hd : ob.is_updated_data <;>
        simp_all [DataExporter.sub, DataExporter.export_plugin]
    · have hex := (exportVRayClipper_spec env ob cu ov st).2
      rw [hex]
      rcases h with h | h | h <;> simp [h]
    · exact (exportVRayClipper_spec env ob cu ov st).1

/-- C12 (code at the failing input): the clean "Cube" exported with `check_updated = true`.
The call records "Clipper@Cube" under `IdTrack::CLIPPER` and sends nothing to the sink, but
what it returns is the bare `std::string` `pluginName` (line 181), a string value and not
the plugin handle of that name; the forced export of the same object returns the handle. -/
theorem exportVRayClipper_clean_returns_string :
    (exportVRayClipper envDemo (demoObject false false none) true ObjectOverridesAttrs.none
        DataExporter.init) =
      (.string "Clipper@Cube",
        ⟨[⟨"Cube", "Clipper@Cube", IdTrackType.CLIPPER⟩], [], [], []⟩) ∧
    (exportVRayClipper envDemo (demoObject false false none) true ObjectOverridesAttrs.none
        DataExporter.init).1 ≠ .plugin ⟨"Clipper@Cube"⟩ ∧
    (exportVRayClipper envDemo (demoObject false false none) false ObjectOverridesAttrs.none
        DataExporter.init).1 = .plugin ⟨"Clipper@Cube"⟩ := by
  decide

/-! ## The camera of a viewport that does not look through the camera -/

/-- C13 (code at the failing input): a viewport in perspective view over a scene whose camera
has `CameraPhysical.use` switched on.  `get_view_from_viewport` clears `usePhysicalCamera`
("No physical camera for non camera views"), but `sync_view` then overwrites the flag with
`is_physical_view(cameraObject)`, so the pass submits "cameraPhysical" and not
"cameraDefault". -/
theorem sync_view_viewport_physical_camera :
    demoViewportHost.view_perspective ≠ ViewPerspective.CAMERA ∧
    (get_view_from_viewport demoViewportHost ⟨true, none, 1, 100⟩ ViewParams.new
        DataExporter.init).map (fun r => r.1.usePhysicalCamera) = some false ∧
    (sync_view.viewParams demoViewportHost DataExporter.init).map
        (fun r => r.1.usePhysicalCamera) = some true ∧
    (sync_view differSame demoViewportHost demoScene).map
        (fun r => r.m_data_exporter.m_exporter) =
      some [.export_plugin ⟨"cameraPhysical", "CameraPhysical", [("fov", .float 0)]⟩] := by
  decide

/-! ## The material slot of a hair system -/

theorem hairNodeDesc_material (ob : Object) (name : String) (geom mtl : AttrPlugin) :
    (exportHair.hairNodeDesc ob name geom mtl).get "material" = some (.plugin mtl) := by
  simp [exportHair.hairNodeDesc, PluginDesc.get, PluginDesc.add, PluginDesc.new, List.find?]

/-- Inside the list the slot access is defined. -/
theorem material_slots_at_in_bounds (slots : List MaterialSlot) (index : Int)
    (h0 : 0 ≤ index) (h1 : index < slots.length) :
    ∃ slot, material_slots_at slots index = some slot := by
  have hlt : index.toNat < slots.length := by omega
  exact ⟨slots.get ⟨index.toNat, hlt⟩, by
    simp only [material_slots_at, h0, if_true]
    exact List.get?_eq_get hlt⟩

/-- The three situations in which the hair falls back to the default material. -/
theorem hair_material_default (env : ExportEnv) (ob : Object) (pset : ParticleSettings)
    (st : DataExporter)
    (h : ob.material_slots = [] ∨ ¬ (pset.material - 1 < (ob.material_slots.length : Int)) ∨
      ∃ slot, material_slots_at ob.material_slots (pset.material - 1) = some slot ∧
        slot.material = none) :
    exportHair.material env ob pset st = some (env.getDefaultMaterial, st) := by
  unfold exportHair.material
  simp only []
  rcases h with h | h | ⟨slot, hs, hn⟩
  · simp [h]
  · simp [h]
  · split
    · simp [hs, hn]
    · rfl

/-- With a material number of at least one, the hair material is always obtained: the slot
access, when made, stays inside the list. -/
theorem hair_material_defined (env : ExportEnv) (ob : Object) (pset : ParticleSettings)
    (st : DataExporter) (hm : 1 ≤ pset.material) :
    ∃ r, exportHair.material env ob pset st = some r := by
  unfold exportHair.material
  simp only []
  split
  · rename_i hguard
    simp only [Bool.and_eq_true, decide_eq_true_eq] at hguard
    obtain ⟨slot, hslot⟩ := material_slots_at_in_bounds ob.material_slots (pset.material - 1)
      (by omega) hguard.2
    rw [hslot]
    dsimp only
    split <;> exact ⟨_, rfl⟩
  · exact ⟨_, rfl⟩

theorem hair_node_defined (env : ExportEnv) (ob : Object) (psm : ParticleSystemModifier)
    (psys : ParticleSystem) (pset : ParticleSettings) (u du : Bool) (st : DataExporter)
    (hm : 1 ≤ pset.material) :
    ∃ st', exportHair.node env ob psm psys pset u du st = some st' := by
  unfold exportHair.node
  simp only []
  obtain ⟨⟨mtl, s2⟩, hr⟩ := hair_material_defined env ob pset
    (exportHair.geom env ob psm psys pset du
      (st.id_track_insert ob ("Node@" ++ env.getHairName ob psys pset)
        IdTrackType.DEFAULT)).2 hm
  rw [hr]
  dsimp only
  split <;> exact ⟨_, rfl⟩

theorem hair_node_default (env : ExportEnv) (ob : Object) (psm : ParticleSystemModifier)
    (psys : ParticleSystem) (pset : ParticleSettings) (u du : Bool) (st st' : DataExporter)
    (h : ob.material_slots = [] ∨ ¬ (pset.material - 1 < (ob.material_slots.length : Int)) ∨
      ∃ slot, material_slots_at ob.material_slots (pset.material - 1) = some slot ∧
        slot.material = none)
    (hnode : exportHair.node env ob psm psys pset u du st = some st') :
    ∀ d, ExporterCall.export_plugin d ∈ st'.m_exporter →
      ExporterCall.export_plugin d ∈ st.m_exporter ∨
        d.get "material" = some (.plugin env.getDefaultMaterial) := by
  unfold exportHair.node at hnode
  simp only [hair_material_default env ob pset _ h] at hnode
  obtain ⟨-, subs1, hex1⟩ := hair_geom_frame env ob psm psys pset du
    (st.id_track_insert ob ("Node@" ++ env.getHairName ob psys pset) IdTrackType.DEFAULT)
  have hex0 : (st.id_track_insert ob ("Node@" ++ env.getHairName ob psys pset)
      IdTrackType.DEFAULT).m_exporter = st.m_exporter := rfl
  rw [hex0] at hex1
  intro d hd
  split at hnode
  · simp only [Option.some.injEq] at hnode
    subst hnode
    simp only [DataExporter.export_plugin, hex1, List.mem_append, List.mem_map,
      List.mem_singleton] at hd
    rcases hd with (hd | ⟨x, _, hx⟩) | hd
    · exact Or.inl hd
    · cases hx
    · right
      injection hd with hd
      rw [hd]
      exact hairNodeDesc_material ..
  · simp only [Option.some.injEq] at hnode
    subst hnode
    rw [hex1] at hd
    simp only [List.mem_append, List.mem_map] at hd
    rcases hd with hd | ⟨x, _, hx⟩
    · exact Or.inl hd
    · cases hx

/-- C14: under the precondition `pset.material() >= 1`, whenever `exportHair` indexes
`ob.material_slots` (the list is not empty and the index is below its length) the index
`pset.material() - 1` lies in `[0, length)`, the access is defined and `exportHair` returns;
and whenever the slot list is empty, the index is not below the length, or the slot holds no
material, no slot material is exported and every `Node` submitted by the call carries the
default material. -/
theorem exportHair_material_slot (env : ExportEnv) (ob : Object) (psm : ParticleSystemModifier)
    (psys : ParticleSystem) (pset : ParticleSettings) (cu : Bool) (st : DataExporter)
    (hset : psys.settings = some pset) (hm : 1 ≤ pset.material) :
    (((ob.material_slots.length : Int) ≠ 0 ∧
        pset.material - 1 < (ob.material_slots.length : Int)) →
      0 ≤ pset.material - 1 ∧ pset.material - 1 < (ob.material_slots.length : Int) ∧
      ∃ slot, material_slots_at ob.material_slots (pset.material - 1) = some slot) ∧
    (∃ st', exportHair env ob psm psys cu st = some st') ∧
    ((ob.material_slots = [] ∨ ¬ (pset.material - 1 < (ob.material_slots.length : Int)) ∨
        ∃ slot, material_slots_at ob.material_slots (pset.material - 1) = some slot ∧
          slot.material = none) →
      (∀ s, exportHair.material env ob pset s = some (env.getDefaultMaterial, s)) ∧
      ∀ st', exportHair env ob psm psys cu st = some st' →
        ∀ d, ExporterCall.export_plugin d ∈ st'.m_exporter →
          ExporterCall.export_plugin d ∈ st.m_exporter ∨
            d.get "material" = some (.plugin env.getDefaultMaterial)) := by
  refine ⟨?_, ?_, ?_⟩
  · intro hguard
    exact ⟨by omega, hguard.2,
      material_slots_at_in_bounds ob.material_slots (pset.material - 1) (by omega) hguard.2⟩
  · unfold exportHair
    simp only [hset]
    split
    · exact hair_node_defined env ob psm psys pset _ _ st hm
    · exact ⟨_, rfl⟩
  · intro h
    refine ⟨fun s => hair_material_default env ob pset s h, ?_⟩
    intro st' hrun
    unfold exportHair at hrun
    simp only [hset] at hrun
    split at hrun
    · exact hair_node_default env ob psm psys pset _ _ st st' h hrun
    · simp only [Option.some.injEq] at hrun
      subst hrun
      intro d hd
      exact Or.inl hd

/-- Witness of `exportHair_material_slot`: the fur of "Cube" uses material slot 1 of 1, and
on the bare "Cube" without slots the hair `Node` gets the default material. -/
theorem exportHair_material_slot_witness :
    (0 ≤ (1 : Int) - 1 ∧ (1 : Int) - 1 < (demoFurObject.material_slots.length : Int) ∧
      ∃ slot, material_slots_at demoFurObject.material_slots (1 - 1) = some slot) ∧
    (∃ st', exportHair envDemo demoFurObject ⟨"FurModifier"⟩ demoHair false
      DataExporter.init = some st') ∧
    exportHair.material envDemo (demoObject true true none)
        ⟨"FurSettings", ParticleType.HAIR, ParticleRenderType.PATH, false, 1⟩
        DataExporter.init =
      some (envDemo.getDefaultMaterial, DataExporter.init) :=
  have h := exportHair_material_slot envDemo demoFurObject ⟨"FurModifier"⟩ demoHair
    ⟨"FurSettings", ParticleType.HAIR, ParticleRenderType.PATH, false, 1⟩ false
    DataExporter.init rfl (by decide)
  have h' := exportHair_material_slot envDemo (demoObject true true none) ⟨"FurModifier"⟩
    demoHair ⟨"FurSettings", ParticleType.HAIR, ParticleRenderType.PATH, false, 1⟩ false
    DataExporter.init rfl (by decide)
  ⟨h.1 ⟨by decide, by decide⟩, h.2.1, (h'.2.2 (Or.inl rfl)).1 DataExporter.init⟩

end VRayForBlender
